import Mathlib

/-!
# Verification of the `simplicity` crate (Simulation of Simplicity predicates)

This file gives a shallow embedding of the crate's two layers:

* the runtime cascade evaluator (`src/src/lib.rs`): the predicates
  `orient_1d`, `orient_2d`, `orient_3d`, `in_circle`, `in_sphere`, each of
  which sorts its index arguments with an insertion sort that tracks the
  parity of the sorting permutation (`sorted_fn`), fetches the coordinate
  vectors of the sorted indices, and then walks a fixed chain of sign
  tests (`case!` macro expansions) until the first nonzero sign decides
  the result;
* the compile-time symbolic generator (`simplicity_derive`): `terms`,
  `term_sums`, `without_zero_dets` and the pattern classifier of
  `TermSum::case`.

Coordinates are modelled as rationals; the external exact oracles of the
`robust_geo` crate are modelled as the exact determinants whose signs they
report (the crate's contract: the returned value's sign equals the sign of
the exact determinant, and it is zero exactly when the determinant is).
-/

/-! ## Coordinate vectors (`nalgebra::Vector2/Vector3` with exact entries) -/

/-- A 2-dimensional coordinate vector (`Vec2` in the source). -/
structure Vec2 where
  x : ℚ
  y : ℚ
deriving DecidableEq, Repr

/-- A 3-dimensional coordinate vector (`Vec3` in the source). -/
structure Vec3 where
  x : ℚ
  y : ℚ
  z : ℚ
deriving DecidableEq, Repr

/-- Swizzle `.yx()` on a 2-vector. -/
def Vec2.yx (v : Vec2) : Vec2 := ⟨v.y, v.x⟩

/-- Swizzle `.xy()` on a 2-vector (the identity; spelled out because the
source applies it literally). -/
def Vec2.xy (v : Vec2) : Vec2 := ⟨v.x, v.y⟩

/-- Swizzle `.xy()` on a 3-vector. -/
def Vec3.xy (v : Vec3) : Vec2 := ⟨v.x, v.y⟩

/-- Swizzle `.zx()` on a 3-vector. -/
def Vec3.zx (v : Vec3) : Vec2 := ⟨v.z, v.x⟩

/-- Swizzle `.yz()` on a 3-vector. -/
def Vec3.yz (v : Vec3) : Vec2 := ⟨v.y, v.z⟩

/-- Swizzle `.yx()` on a 3-vector. -/
def Vec3.yx (v : Vec3) : Vec2 := ⟨v.y, v.x⟩

/-- Swizzle `.xz()` on a 3-vector. -/
def Vec3.xz (v : Vec3) : Vec2 := ⟨v.x, v.z⟩

/-- Swizzle `.zy()` on a 3-vector. -/
def Vec3.zy (v : Vec3) : Vec2 := ⟨v.z, v.y⟩

/-- Swizzle `.xyz()` on a 3-vector (identity). -/
def Vec3.xyz (v : Vec3) : Vec3 := ⟨v.x, v.y, v.z⟩

/-- Swizzle `.zxy()` on a 3-vector. -/
def Vec3.zxy (v : Vec3) : Vec3 := ⟨v.z, v.x, v.y⟩

/-- Swizzle `.yzx()` on a 3-vector. -/
def Vec3.yzx (v : Vec3) : Vec3 := ⟨v.y, v.z, v.x⟩

/-- Swizzle `.yxz()` on a 3-vector. -/
def Vec3.yxz (v : Vec3) : Vec3 := ⟨v.y, v.x, v.z⟩

/-- Swizzle `.xzy()` on a 3-vector. -/
def Vec3.xzy (v : Vec3) : Vec3 := ⟨v.x, v.z, v.y⟩

/-- Swizzle `.zyx()` on a 3-vector. -/
def Vec3.zyx (v : Vec3) : Vec3 := ⟨v.z, v.y, v.x⟩

/-- Squared magnitude of a 2-vector. -/
def Vec2.mag (v : Vec2) : ℚ := v.x * v.x + v.y * v.y

/-- Squared magnitude of a 3-vector. -/
def Vec3.mag (v : Vec3) : ℚ := v.x * v.x + v.y * v.y + v.z * v.z

/-! ## Exact sign oracles (the `robust_geo` crate, namespace `rg`)

Each oracle returns a value whose sign equals the sign of the stated
determinant, and is zero exactly when the determinant vanishes; we model
it by the determinant itself. -/

/-- 2×2 determinant. -/
def det2 (a1 a2 b1 b2 : ℚ) : ℚ := a1 * b2 - a2 * b1

/-- 3×3 determinant, cofactor expansion along the first row. -/
def det3 (a1 a2 a3 b1 b2 b3 c1 c2 c3 : ℚ) : ℚ :=
  a1 * det2 b2 b3 c2 c3 - a2 * det2 b1 b3 c1 c3 + a3 * det2 b1 b2 c1 c2

/-- 4×4 determinant, cofactor expansion along the first row. -/
def det4 (a1 a2 a3 a4 b1 b2 b3 b4 c1 c2 c3 c4 d1 d2 d3 d4 : ℚ) : ℚ :=
  a1 * det3 b2 b3 b4 c2 c3 c4 d2 d3 d4
    - a2 * det3 b1 b3 b4 c1 c3 c4 d1 d3 d4
    + a3 * det3 b1 b2 b4 c1 c2 c4 d1 d2 d4
    - a4 * det3 b1 b2 b3 c1 c2 c3 d1 d2 d3

namespace rg

/-- `rg::orient_2d(a, b, c)`: sign of the 3×3 orientation determinant;
positive iff `a`, `b`, `c` make a left turn. -/
def orient_2d (a b c : Vec2) : ℚ :=
  det3 a.x a.y 1 b.x b.y 1 c.x c.y 1

/-- `rg::orient_3d(a, b, c, d)`: sign of the 4×4 orientation determinant
(the 3×3 determinant of the rows `a - d`, `b - d`, `c - d`). -/
def orient_3d (a b c d : Vec3) : ℚ :=
  det3 (a.x - d.x) (a.y - d.y) (a.z - d.z)
       (b.x - d.x) (b.y - d.y) (b.z - d.z)
       (c.x - d.x) (c.y - d.y) (c.z - d.z)

/-- `rg::magnitude_cmp_2d(a, b)`: sign of `|a|² - |b|²`. -/
def magnitude_cmp_2d (a b : Vec2) : ℚ := a.mag - b.mag

/-- `rg::magnitude_cmp_3d(a, b)`: sign of `|a|² - |b|²`. -/
def magnitude_cmp_3d (a b : Vec3) : ℚ := a.mag - b.mag

/-- `rg::sign_det_x_x2y2(a, b, c)`: sign of the 3×3 determinant with a
coordinate column, the squared-magnitude column and a column of ones. -/
def sign_det_x_x2y2 (a b c : Vec2) : ℚ :=
  det3 a.x a.mag 1 b.x b.mag 1 c.x c.mag 1

/-- `rg::sign_det_x_x2y2z2(a, b, c)`: 3-dimensional analogue of
`sign_det_x_x2y2`. -/
def sign_det_x_x2y2z2 (a b c : Vec3) : ℚ :=
  det3 a.x a.mag 1 b.x b.mag 1 c.x c.mag 1

/-- `rg::sign_det_x_y_x2y2z2(a, b, c, d)`: sign of the 4×4 determinant
with two coordinate columns, the squared-magnitude column and ones. -/
def sign_det_x_y_x2y2z2 (a b c d : Vec3) : ℚ :=
  det4 a.x a.y a.mag 1 b.x b.y b.mag 1 c.x c.y c.mag 1 d.x d.y d.mag 1

/-- `rg::in_circle(a, b, c, d)`: sign of the 4×4 in-circle determinant. -/
def in_circle (a b c d : Vec2) : ℚ :=
  det4 a.x a.y a.mag 1 b.x b.y b.mag 1 c.x c.y c.mag 1 d.x d.y d.mag 1

/-- `rg::in_sphere(a, b, c, d, e)`: sign of the 5×5 in-sphere determinant,
expanded along its final column of ones. -/
def in_sphere (a b c d e : Vec3) : ℚ :=
  det4 b.x b.y b.z b.mag c.x c.y c.z c.mag d.x d.y d.z d.mag e.x e.y e.z e.mag
    - det4 a.x a.y a.z a.mag c.x c.y c.z c.mag d.x d.y d.z d.mag e.x e.y e.z e.mag
    + det4 a.x a.y a.z a.mag b.x b.y b.z b.mag d.x d.y d.z d.mag e.x e.y e.z e.mag
    - det4 a.x a.y a.z a.mag b.x b.y b.z b.mag c.x c.y c.z c.mag e.x e.y e.z e.mag
    + det4 a.x a.y a.z a.mag b.x b.y b.z b.mag c.x c.y c.z c.mag d.x d.y d.z d.mag

end rg

/-! ## Sorting with parity (`sorted_fn!` macro: `sorted_3`, `sorted_4`, `sorted_5`)

The source's macro generates, for each arity, an insertion sort on an
index array that counts the number of swaps and returns the sorted array
together with `num_swaps % 2 != 0`.  We embed the loop functionally:
`insertW` inserts one element into the (already sorted) prefix, returning
the number of swaps this insertion performs — the element moves left past
exactly the prefix elements strictly greater than it — and `sortWGo`
threads the running swap count over the input. -/

/-- Insert `x` into the sorted prefix `l`, returning the new prefix and
the number of swaps (`arr[j] > arr[j+1]` comparisons that fired). -/
def insertW (x : ℕ) : List ℕ → List ℕ × ℕ
  | [] => ([x], 0)
  | y :: ys =>
    if x < y then (x :: y :: ys, ys.length + 1)
    else (y :: (insertW x ys).1, (insertW x ys).2)

/-- The insertion-sort loop: fold the remaining elements into the sorted
prefix, accumulating the swap count. -/
def sortWGo : List ℕ → ℕ → List ℕ → List ℕ × ℕ
  | acc, n, [] => (acc, n)
  | acc, n, x :: xs => sortWGo (insertW x acc).1 (n + (insertW x acc).2) xs

/-- `sorted_3` / `sorted_4` / `sorted_5` from the `sorted_fn!` macro:
sort the index list ascending and report whether the number of swaps was
odd. -/
def sorted_fn (l : List ℕ) : List ℕ × Bool :=
  ((sortWGo [] 0 l).1, decide ((sortWGo [] 0 l).2 % 2 = 1))

/-! ## The cascade cases

Every `case!` invocation in the source compares an exact quantity against
a second one (an oracle value against `0.0`, or one coordinate against
another); when they differ it returns `(first > second) != odd`.  We
record each case as the ordered pair of the two compared quantities, in
the textual order of the `case!` lines. -/

/-- One pass of the evaluator over its decision table: at the first case
whose two sides differ (nonzero sign), return `(sign > 0) XOR odd`; if
every case ties, fall through to `!odd`. -/
def cascadeEval : List (ℚ × ℚ) → Bool → Bool
  | [], odd => !odd
  | (a, b) :: rest, odd =>
    if a ≠ b then decide (b < a) != odd else cascadeEval rest odd

/-- The four cases of `orient_2d` (sorted points `pi pj pk`). -/
def orient_2dCases (pi pj pk : Vec2) : List (ℚ × ℚ) :=
  [ (rg.orient_2d pi pj pk, 0),
    (pk.x, pj.x),
    (pj.y, pk.y),
    (pi.x, pk.x) ]

/-- The thirteen cases of `orient_3d` (sorted points `pi pj pk pl`). -/
def orient_3dCases (pi pj pk pl : Vec3) : List (ℚ × ℚ) :=
  [ (rg.orient_3d pi pj pk pl, 0),
    (rg.orient_2d pj.xy pk.xy pl.xy, 0),
    (rg.orient_2d pj.zx pk.zx pl.zx, 0),
    (rg.orient_2d pj.yz pk.yz pl.yz, 0),
    (rg.orient_2d pi.yx pk.yx pl.yx, 0),
    (pk.x, pl.x),
    (pl.y, pk.y),
    (rg.orient_2d pi.xz pk.xz pl.xz, 0),
    (pk.z, pl.z),
    (rg.orient_2d pi.xy pj.xy pl.xy, 0),
    (pl.x, pj.x),
    (pj.y, pl.y),
    (pi.x, pl.x) ]

/-- The eleven cases of `in_circle` (sorted points `pi pj pk pl`). -/
def in_circleCases (pi pj pk pl : Vec2) : List (ℚ × ℚ) :=
  [ (rg.in_circle pi pj pk pl, 0),
    (rg.orient_2d pj.xy pk.xy pl.xy, 0),
    (rg.sign_det_x_x2y2 pj.xy pl.xy pk.xy, 0),
    (rg.sign_det_x_x2y2 pj.yx pk.yx pl.yx, 0),
    (rg.orient_2d pi.yx pk.yx pl.yx, 0),
    (pk.x, pl.x),
    (pl.y, pk.y),
    (rg.orient_2d pi.xy pj.xy pl.xy, 0),
    (pl.x, pj.x),
    (pj.y, pl.y),
    (pi.x, pl.x) ]

/-- The forty-eight cases of `in_sphere` (sorted points `pi pj pk pl pm`). -/
def in_sphereCases (pi pj pk pl pm : Vec3) : List (ℚ × ℚ) :=
  [ (rg.in_sphere pi pj pk pl pm, 0),
    (rg.orient_3d pj pk pm pl, 0),
    (rg.sign_det_x_y_x2y2z2 pj.xyz pk.xyz pl.xyz pm.xyz, 0),
    (rg.sign_det_x_y_x2y2z2 pj.zxy pk.zxy pl.zxy pm.zxy, 0),
    (rg.sign_det_x_y_x2y2z2 pj.yzx pk.yzx pl.yzx pm.yzx, 0),
    (rg.orient_3d pi pk pl pm, 0),
    (rg.orient_2d pk.xy pl.xy pm.xy, 0),
    (rg.orient_2d pk.zx pl.zx pm.zx, 0),
    (rg.orient_2d pk.yz pl.yz pm.yz, 0),
    (rg.sign_det_x_y_x2y2z2 pi.yxz pk.yxz pl.yxz pm.yxz, 0),
    (rg.sign_det_x_x2y2z2 pk.xyz pl.xyz pm.xyz, 0),
    (rg.sign_det_x_x2y2z2 pk.yzx pm.yzx pl.yzx, 0),
    (rg.sign_det_x_y_x2y2z2 pi.xzy pk.xzy pl.xzy pm.xzy, 0),
    (rg.sign_det_x_x2y2z2 pk.zxy pl.zxy pm.zxy, 0),
    (rg.sign_det_x_y_x2y2z2 pi.zyx pk.zyx pl.zyx pm.zyx, 0),
    (rg.orient_3d pi pj pm pl, 0),
    (rg.orient_2d pj.yx pl.yx pm.yx, 0),
    (rg.orient_2d pj.xz pl.xz pm.xz, 0),
    (rg.orient_2d pj.zy pl.zy pm.zy, 0),
    (rg.orient_2d pi.xy pl.xy pm.xy, 0),
    (pm.x, pl.x),
    (pl.y, pm.y),
    (rg.orient_2d pi.zx pl.zx pm.zx, 0),
    (pm.z, pl.z),
    (rg.orient_2d pi.yz pl.yz pm.yz, 0),
    (rg.sign_det_x_y_x2y2z2 pi.xyz pj.xyz pl.xyz pm.xyz, 0),
    (rg.sign_det_x_x2y2z2 pj.xyz pm.xyz pl.xyz, 0),
    (rg.sign_det_x_x2y2z2 pj.yzx pl.yzx pm.yzx, 0),
    (rg.sign_det_x_x2y2z2 pi.xyz pl.xyz pm.xyz, 0),
    (rg.magnitude_cmp_3d pl pm, 0),
    (rg.sign_det_x_x2y2z2 pi.yzx pm.yzx pl.yzx, 0),
    (rg.sign_det_x_y_x2y2z2 pi.zxy pj.zxy pl.zxy pm.zxy, 0),
    (rg.sign_det_x_x2y2z2 pj.zxy pm.zxy pl.zxy, 0),
    (rg.sign_det_x_x2y2z2 pi.zxy pl.zxy pm.zxy, 0),
    (rg.sign_det_x_y_x2y2z2 pi.yzx pj.yzx pl.yzx pm.yzx, 0),
    (rg.orient_3d pi pj pk pm, 0),
    (rg.orient_2d pj.xy pk.xy pm.xy, 0),
    (rg.orient_2d pj.zx pk.zx pm.zx, 0),
    (rg.orient_2d pj.yz pk.yz pm.yz, 0),
    (rg.orient_2d pi.yx pk.yx pm.yx, 0),
    (pk.x, pm.x),
    (pm.y, pk.y),
    (rg.orient_2d pi.xz pk.xz pm.xz, 0),
    (pk.z, pm.z),
    (rg.orient_2d pi.xy pj.xy pm.xy, 0),
    (pm.x, pj.x),
    (pj.y, pm.y),
    (pi.x, pm.x) ]

/-! ## The public predicates (`src/src/lib.rs`)

Each `..Core` function is the body of the Rust function after index
sorting and point fetching, with every `case!` macro invocation expanded
to its `let val = ...; if val != 0.0 { return (val > 0.0) != odd }`
chain (early returns become nested `else`s). -/

/-- `orient_1d`: no sorting, no oracle; `pi > pj || (pi == pj && i < j)`. -/
def orient_1d {α : Type _} (list : α) (index_fn : α → ℕ → ℚ) (i j : ℕ) : Bool :=
  decide (index_fn list j < index_fn list i)
    || (decide (index_fn list i = index_fn list j) && decide (i < j))

/-- The case chain of `orient_2d` on the fetched sorted points. -/
def orient_2dCore (pi pj pk : Vec2) (odd : Bool) : Bool :=
  let val := rg.orient_2d pi pj pk
  if val ≠ 0 then decide (0 < val) != odd else
  if pk.x ≠ pj.x then decide (pj.x < pk.x) != odd else
  if pj.y ≠ pk.y then decide (pk.y < pj.y) != odd else
  if pi.x ≠ pk.x then decide (pk.x < pi.x) != odd else
  !odd

/-- The body of `orient_2d` after index sorting: fetch the three points
and walk the four cases. -/
def orient_2dDispatch {α : Type _} (list : α) (index_fn : α → ℕ → Vec2)
    (p : List ℕ × Bool) : Bool :=
  match p with
  | ([i, j, k], odd) =>
    orient_2dCore (index_fn list i) (index_fn list j) (index_fn list k) odd
  | (_, odd) => !odd

/-- `orient_2d(list, index_fn, i, j, k)`. -/
def orient_2d {α : Type _} (list : α) (index_fn : α → ℕ → Vec2)
    (i j k : ℕ) : Bool :=
  orient_2dDispatch list index_fn (sorted_fn [i, j, k])

/-- The case chain of `orient_3d` on the fetched sorted points. -/
def orient_3dCore (pi pj pk pl : Vec3) (odd : Bool) : Bool :=
  let val := rg.orient_3d pi pj pk pl
  if val ≠ 0 then decide (0 < val) != odd else
  let val := rg.orient_2d pj.xy pk.xy pl.xy
  if val ≠ 0 then decide (0 < val) != odd else
  let val := rg.orient_2d pj.zx pk.zx pl.zx
  if val ≠ 0 then decide (0 < val) != odd else
  let val := rg.orient_2d pj.yz pk.yz pl.yz
  if val ≠ 0 then decide (0 < val) != odd else
  let val := rg.orient_2d pi.yx pk.yx pl.yx
  if val ≠ 0 then decide (0 < val) != odd else
  if pk.x ≠ pl.x then decide (pl.x < pk.x) != odd else
  if pl.y ≠ pk.y then decide (pk.y < pl.y) != odd else
  let val := rg.orient_2d pi.xz pk.xz pl.xz
  if val ≠ 0 then decide (0 < val) != odd else
  if pk.z ≠ pl.z then decide (pl.z < pk.z) != odd else
  let val := rg.orient_2d pi.xy pj.xy pl.xy
  if val ≠ 0 then decide (0 < val) != odd else
  if pl.x ≠ pj.x then decide (pj.x < pl.x) != odd else
  if pj.y ≠ pl.y then decide (pl.y < pj.y) != odd else
  if pi.x ≠ pl.x then decide (pl.x < pi.x) != odd else
  !odd

/-- The body of `orient_3d` after index sorting. -/
def orient_3dDispatch {α : Type _} (list : α) (index_fn : α → ℕ → Vec3)
    (p : List ℕ × Bool) : Bool :=
  match p with
  | ([i, j, k, l], odd) =>
    orient_3dCore (index_fn list i) (index_fn list j) (index_fn list k)
      (index_fn list l) odd
  | (_, odd) => !odd

/-- `orient_3d(list, index_fn, i, j, k, l)`. -/
def orient_3d {α : Type _} (list : α) (index_fn : α → ℕ → Vec3)
    (i j k l : ℕ) : Bool :=
  orient_3dDispatch list index_fn (sorted_fn [i, j, k, l])

/-- The case chain of `in_circle` on the fetched sorted points. -/
def in_circleCore (pi pj pk pl : Vec2) (odd : Bool) : Bool :=
  let val := rg.in_circle pi pj pk pl
  if val ≠ 0 then decide (0 < val) != odd else
  let val := rg.orient_2d pj.xy pk.xy pl.xy
  if val ≠ 0 then decide (0 < val) != odd else
  let val := rg.sign_det_x_x2y2 pj.xy pl.xy pk.xy
  if val ≠ 0 then decide (0 < val) != odd else
  let val := rg.sign_det_x_x2y2 pj.yx pk.yx pl.yx
  if val ≠ 0 then decide (0 < val) != odd else
  let val := rg.orient_2d pi.yx pk.yx pl.yx
  if val ≠ 0 then decide (0 < val) != odd else
  if pk.x ≠ pl.x then decide (pl.x < pk.x) != odd else
  if pl.y ≠ pk.y then decide (pk.y < pl.y) != odd else
  let val := rg.orient_2d pi.xy pj.xy pl.xy
  if val ≠ 0 then decide (0 < val) != odd else
  if pl.x ≠ pj.x then decide (pj.x < pl.x) != odd else
  if pj.y ≠ pl.y then decide (pl.y < pj.y) != odd else
  if pi.x ≠ pl.x then decide (pl.x < pi.x) != odd else
  !odd

/-- The body of `in_circle` after the orientation flip has been folded
into the parity. -/
def in_circleDispatch {α : Type _} (list : α) (index_fn : α → ℕ → Vec2)
    (p : List ℕ × Bool) : Bool :=
  match p with
  | ([i, j, k, l], odd) =>
    in_circleCore (index_fn list i) (index_fn list j) (index_fn list k)
      (index_fn list l) odd
  | (_, odd) => !odd

/-- `in_circle(list, index_fn, i, j, k, l)`: computes
`flip = !orient_2d(list, index_fn, i, j, k)`, sorts, XORs `flip` into the
parity and walks the table. -/
def in_circle {α : Type _} (list : α) (index_fn : α → ℕ → Vec2)
    (i j k l : ℕ) : Bool :=
  let flip := !orient_2d list index_fn i j k
  match sorted_fn [i, j, k, l] with
  | (s, odd) => in_circleDispatch list index_fn (s, odd != flip)

/-- The case chain of `in_sphere` on the fetched sorted points. -/
def in_sphereCore (pi pj pk pl pm : Vec3) (odd : Bool) : Bool :=
  let val := rg.in_sphere pi pj pk pl pm
  if val ≠ 0 then decide (0 < val) != odd else
  let val := rg.orient_3d pj pk pm pl
  if val ≠ 0 then decide (0 < val) != odd else
  let val := rg.sign_det_x_y_x2y2z2 pj.xyz pk.xyz pl.xyz pm.xyz
  if val ≠ 0 then decide (0 < val) != odd else
  let val := rg.sign_det_x_y_x2y2z2 pj.zxy pk.zxy pl.zxy pm.zxy
  if val ≠ 0 then decide (0 < val) != odd else
  let val := rg.sign_det_x_y_x2y2z2 pj.yzx pk.yzx pl.yzx pm.yzx
  if val ≠ 0 then decide (0 < val) != odd else
  let val := rg.orient_3d pi pk pl pm
  if val ≠ 0 then decide (0 < val) != odd else
  let val := rg.orient_2d pk.xy pl.xy pm.xy
  if val ≠ 0 then decide (0 < val) != odd else
  let val := rg.orient_2d pk.zx pl.zx pm.zx
  if val ≠ 0 then decide (0 < val) != odd else
  let val := rg.orient_2d pk.yz pl.yz pm.yz
  if val ≠ 0 then decide (0 < val) != odd else
  let val := rg.sign_det_x_y_x2y2z2 pi.yxz pk.yxz pl.yxz pm.yxz
  if val ≠ 0 then decide (0 < val) != odd else
  let val := rg.sign_det_x_x2y2z2 pk.xyz pl.xyz pm.xyz
  if val ≠ 0 then decide (0 < val) != odd else
  let val := rg.sign_det_x_x2y2z2 pk.yzx pm.yzx pl.yzx
  if val ≠ 0 then decide (0 < val) != odd else
  let val := rg.sign_det_x_y_x2y2z2 pi.xzy pk.xzy pl.xzy pm.xzy
  if val ≠ 0 then decide (0 < val) != odd else
  let val := rg.sign_det_x_x2y2z2 pk.zxy pl.zxy pm.zxy
  if val ≠ 0 then decide (0 < val) != odd else
  let val := rg.sign_det_x_y_x2y2z2 pi.zyx pk.zyx pl.zyx pm.zyx
  if val ≠ 0 then decide (0 < val) != odd else
  let val := rg.orient_3d pi pj pm pl
  if val ≠ 0 then decide (0 < val) != odd else
  let val := rg.orient_2d pj.yx pl.yx pm.yx
  if val ≠ 0 then decide (0 < val) != odd else
  let val := rg.orient_2d pj.xz pl.xz pm.xz
  if val ≠ 0 then decide (0 < val) != odd else
  let val := rg.orient_2d pj.zy pl.zy pm.zy
  if val ≠ 0 then decide (0 < val) != odd else
  let val := rg.orient_2d pi.xy pl.xy pm.xy
  if val ≠ 0 then decide (0 < val) != odd else
  if pm.x ≠ pl.x then decide (pl.x < pm.x) != odd else
  if pl.y ≠ pm.y then decide (pm.y < pl.y) != odd else
  let val := rg.orient_2d pi.zx pl.zx pm.zx
  if val ≠ 0 then decide (0 < val) != odd else
  if pm.z ≠ pl.z then decide (pl.z < pm.z) != odd else
  let val := rg.orient_2d pi.yz pl.yz pm.yz
  if val ≠ 0 then decide (0 < val) != odd else
  let val := rg.sign_det_x_y_x2y2z2 pi.xyz pj.xyz pl.xyz pm.xyz
  if val ≠ 0 then decide (0 < val) != odd else
  let val := rg.sign_det_x_x2y2z2 pj.xyz pm.xyz pl.xyz
  if val ≠ 0 then decide (0 < val) != odd else
  let val := rg.sign_det_x_x2y2z2 pj.yzx pl.yzx pm.yzx
  if val ≠ 0 then decide (0 < val) != odd else
  let val := rg.sign_det_x_x2y2z2 pi.xyz pl.xyz pm.xyz
  if val ≠ 0 then decide (0 < val) != odd else
  let val := rg.magnitude_cmp_3d pl pm
  if val ≠ 0 then decide (0 < val) != odd else
  let val := rg.sign_det_x_x2y2z2 pi.yzx pm.yzx pl.yzx
  if val ≠ 0 then decide (0 < val) != odd else
  let val := rg.sign_det_x_y_x2y2z2 pi.zxy pj.zxy pl.zxy pm.zxy
  if val ≠ 0 then decide (0 < val) != odd else
  let val := rg.sign_det_x_x2y2z2 pj.zxy pm.zxy pl.zxy
  if val ≠ 0 then decide (0 < val) != odd else
  let val := rg.sign_det_x_x2y2z2 pi.zxy pl.zxy pm.zxy
  if val ≠ 0 then decide (0 < val) != odd else
  let val := rg.sign_det_x_y_x2y2z2 pi.yzx pj.yzx pl.yzx pm.yzx
  if val ≠ 0 then decide (0 < val) != odd else
  let val := rg.orient_3d pi pj pk pm
  if val ≠ 0 then decide (0 < val) != odd else
  let val := rg.orient_2d pj.xy pk.xy pm.xy
  if val ≠ 0 then decide (0 < val) != odd else
  let val := rg.orient_2d pj.zx pk.zx pm.zx
  if val ≠ 0 then decide (0 < val) != odd else
  let val := rg.orient_2d pj.yz pk.yz pm.yz
  if val ≠ 0 then decide (0 < val) != odd else
  let val := rg.orient_2d pi.yx pk.yx pm.yx
  if val ≠ 0 then decide (0 < val) != odd else
  if pk.x ≠ pm.x then decide (pm.x < pk.x) != odd else
  if pm.y ≠ pk.y then decide (pk.y < pm.y) != odd else
  let val := rg.orient_2d pi.xz pk.xz pm.xz
  if val ≠ 0 then decide (0 < val) != odd else
  if pk.z ≠ pm.z then decide (pm.z < pk.z) != odd else
  let val := rg.orient_2d pi.xy pj.xy pm.xy
  if val ≠ 0 then decide (0 < val) != odd else
  if pm.x ≠ pj.x then decide (pj.x < pm.x) != odd else
  if pj.y ≠ pm.y then decide (pm.y < pj.y) != odd else
  if pi.x ≠ pm.x then decide (pm.x < pi.x) != odd else
  !odd

/-- The body of `in_sphere` after the orientation flip has been folded
into the parity. -/
def in_sphereDispatch {α : Type _} (list : α) (index_fn : α → ℕ → Vec3)
    (p : List ℕ × Bool) : Bool :=
  match p with
  | ([i, j, k, l, m], odd) =>
    in_sphereCore (index_fn list i) (index_fn list j) (index_fn list k)
      (index_fn list l) (index_fn list m) odd
  | (_, odd) => !odd

/-- `in_sphere(list, index_fn, i, j, k, l, m)`. -/
def in_sphere {α : Type _} (list : α) (index_fn : α → ℕ → Vec3)
    (i j k l m : ℕ) : Bool :=
  let flip := !orient_3d list index_fn i j k l
  match sorted_fn [i, j, k, l, m] with
  | (s, odd) => in_sphereDispatch list index_fn (s, odd != flip)

/-! ## Properties of the insertion sort -/

theorem insertW_fst_perm (x : ℕ) (l : List ℕ) : (insertW x l).1.Perm (x :: l) := by
  induction l with
  | nil => simp [insertW]
  | cons y ys ih =>
    simp only [insertW]
    split
    · exact List.Perm.refl _
    · exact ((ih.cons y).trans (List.Perm.swap x y ys))

theorem insertW_fst_sorted (x : ℕ) (l : List ℕ) (hl : l.Sorted (· ≤ ·)) :
    (insertW x l).1.Sorted (· ≤ ·) := by
  induction l with
  | nil => simp [insertW]
  | cons y ys ih =>
    rw [List.sorted_cons] at hl
    simp only [insertW]
    split
    · rename_i hxy
      rw [List.sorted_cons]
      refine ⟨?_, List.sorted_cons.2 hl⟩
      intro b hb
      rcases List.mem_cons.1 hb with hb | hb
      · exact hb ▸ le_of_lt hxy
      · exact le_of_lt (lt_of_lt_of_le hxy (hl.1 b hb))
    · rename_i hxy
      rw [List.sorted_cons]
      refine ⟨?_, ih hl.2⟩
      intro b hb
      have hb' := (insertW_fst_perm x ys).mem_iff.1 hb
      rcases List.mem_cons.1 hb' with hb' | hb'
      · exact hb' ▸ le_of_not_lt hxy
      · exact hl.1 b hb'

theorem insertW_snd_count (x : ℕ) (l : List ℕ) (hl : l.Sorted (· ≤ ·)) :
    (insertW x l).2 = l.countP (fun z => decide (x < z)) := by
  induction l with
  | nil => simp [insertW]
  | cons y ys ih =>
    rw [List.sorted_cons] at hl
    simp only [insertW]
    split
    · rename_i hxy
      have : ys.countP (fun z => decide (x < z)) = ys.length :=
        List.countP_eq_length.2 fun a ha => by
          simpa using lt_of_lt_of_le hxy (hl.1 a ha)
      simp [List.countP_cons, this, hxy]
    · rename_i hxy
      simp [List.countP_cons, hxy, ih hl.2]

theorem insertW_insertW_swap (x y : ℕ) (l : List ℕ) (hxy : x ≠ y)
    (hl : l.Sorted (· ≤ ·)) :
    (insertW y (insertW x l).1).1 = (insertW x (insertW y l).1).1 ∧
      ((insertW x l).2 + (insertW y (insertW x l).1).2) % 2 ≠
        ((insertW y l).2 + (insertW x (insertW y l).1).2) % 2 := by
  constructor
  · have h1 : (insertW y (insertW x l).1).1.Perm (insertW x (insertW y l).1).1 := by
      refine ((insertW_fst_perm y _).trans ?_).trans (insertW_fst_perm x _).symm
      refine ((insertW_fst_perm x l).cons y).trans ?_
      refine (List.Perm.swap x y l).trans ?_
      exact ((insertW_fst_perm y l).cons x).symm
    exact List.eq_of_perm_of_sorted h1
      (insertW_fst_sorted y _ (insertW_fst_sorted x _ hl))
      (insertW_fst_sorted x _ (insertW_fst_sorted y _ hl))
  · have cx := insertW_snd_count x l hl
    have cy := insertW_snd_count y l hl
    have cyx := insertW_snd_count y (insertW x l).1 (insertW_fst_sorted x l hl)
    have cxy := insertW_snd_count x (insertW y l).1 (insertW_fst_sorted y l hl)
    rw [(insertW_fst_perm x l).countP_eq] at cyx
    rw [(insertW_fst_perm y l).countP_eq] at cxy
    rw [List.countP_cons] at cyx cxy
    rw [cx, cy, cyx, cxy]
    rcases lt_trichotomy x y with h | h | h
    · have e1 : (if decide (y < x) = true then 1 else 0) = 0 := by
        simp [not_lt.2 (le_of_lt h)]
      have e2 : (if decide (x < y) = true then 1 else 0) = 1 := by simp [h]
      rw [e1, e2]
      omega
    · exact absurd h hxy
    · have e1 : (if decide (y < x) = true then 1 else 0) = 1 := by simp [h]
      have e2 : (if decide (x < y) = true then 1 else 0) = 0 := by
        simp [not_lt.2 (le_of_lt h)]
      rw [e1, e2]
      omega

theorem sortWGo_fst_shift (rest acc : List ℕ) (n : ℕ) :
    (sortWGo acc n rest).1 = (sortWGo acc 0 rest).1 := by
  induction rest generalizing acc n with
  | nil => rfl
  | cons x xs ih =>
    simp only [sortWGo]
    rw [ih _ (n + (insertW x acc).2), ih _ (0 + (insertW x acc).2)]

theorem sortWGo_snd_shift (rest acc : List ℕ) (n : ℕ) :
    (sortWGo acc n rest).2 = n + (sortWGo acc 0 rest).2 := by
  induction rest generalizing acc n with
  | nil => simp [sortWGo]
  | cons x xs ih =>
    simp only [sortWGo]
    rw [ih _ (n + (insertW x acc).2), ih _ (0 + (insertW x acc).2)]
    omega

theorem sortWGo_fst_perm (rest acc : List ℕ) (n : ℕ) :
    (sortWGo acc n rest).1.Perm (acc ++ rest) := by
  induction rest generalizing acc n with
  | nil => simp [sortWGo]
  | cons x xs ih =>
    simp only [sortWGo]
    exact (ih _ _).trans
      (((insertW_fst_perm x acc).append_right xs).trans List.perm_middle.symm)

theorem sortWGo_fst_sorted (rest acc : List ℕ) (n : ℕ)
    (hacc : acc.Sorted (· ≤ ·)) : (sortWGo acc n rest).1.Sorted (· ≤ ·) := by
  induction rest generalizing acc n with
  | nil => exact hacc
  | cons x xs ih => exact ih _ _ (insertW_fst_sorted x acc hacc)

/-- Exchanging two adjacent input elements of the sort leaves the sorted
output unchanged and changes the swap count by an odd amount. -/
theorem sortWGo_adjSwap (post acc : List ℕ) (n : ℕ) (x y : ℕ) (hxy : x ≠ y)
    (hacc : acc.Sorted (· ≤ ·)) :
    (sortWGo acc n (y :: x :: post)).1 = (sortWGo acc n (x :: y :: post)).1 ∧
      ((sortWGo acc n (y :: x :: post)).2 + (sortWGo acc n (x :: y :: post)).2) % 2 = 1 := by
  obtain ⟨hlist, hcnt⟩ := insertW_insertW_swap x y acc hxy hacc
  have hgo1 : sortWGo acc n (y :: x :: post) =
      sortWGo (insertW x (insertW y acc).1).1
        (n + (insertW y acc).2 + (insertW x (insertW y acc).1).2) post := rfl
  have hgo2 : sortWGo acc n (x :: y :: post) =
      sortWGo (insertW y (insertW x acc).1).1
        (n + (insertW x acc).2 + (insertW y (insertW x acc).1).2) post := rfl
  rw [hgo1, hgo2, hlist]
  constructor
  · rw [sortWGo_fst_shift post _ (n + (insertW y acc).2 + (insertW x (insertW y acc).1).2),
      sortWGo_fst_shift post _ (n + (insertW x acc).2 + (insertW y (insertW x acc).1).2)]
  · rw [sortWGo_snd_shift post _ (n + (insertW y acc).2 + (insertW x (insertW y acc).1).2),
      sortWGo_snd_shift post _ (n + (insertW x acc).2 + (insertW y (insertW x acc).1).2)]
    omega

/-- Exchanging two distinct adjacent elements anywhere in the input list:
same sorted output, opposite swap-count parity. -/
theorem sortW_adjSwap (pre post : List ℕ) (x y : ℕ) (hxy : x ≠ y) :
    (sortWGo [] 0 (pre ++ y :: x :: post)).1 = (sortWGo [] 0 (pre ++ x :: y :: post)).1 ∧
      ((sortWGo [] 0 (pre ++ y :: x :: post)).2 +
        (sortWGo [] 0 (pre ++ x :: y :: post)).2) % 2 = 1 := by
  suffices h : ∀ (pre acc : List ℕ) (n : ℕ), acc.Sorted (· ≤ ·) →
      (sortWGo acc n (pre ++ y :: x :: post)).1 = (sortWGo acc n (pre ++ x :: y :: post)).1 ∧
        ((sortWGo acc n (pre ++ y :: x :: post)).2 +
          (sortWGo acc n (pre ++ x :: y :: post)).2) % 2 = 1 by
    exact h pre [] 0 (by simp)
  intro pre
  induction pre with
  | nil => intro acc n hacc; exact sortWGo_adjSwap post acc n x y hxy hacc
  | cons z zs ih =>
    intro acc n hacc
    simp only [List.cons_append, sortWGo]
    exact ih _ _ (insertW_fst_sorted z acc hacc)

/-- Parity of a sum being odd turns a `% 2 = 1` test on one summand into
the negation of the test on the other. -/
theorem parity_flip {m n : ℕ} (h : (m + n) % 2 = 1) :
    decide (m % 2 = 1) = !decide (n % 2 = 1) := by
  rcases Nat.mod_two_eq_zero_or_one m with hm | hm <;>
    rcases Nat.mod_two_eq_zero_or_one n with hn | hn <;> simp [hm, hn] <;> omega

/-- `sorted_fn` on an adjacent exchange of distinct elements: same sorted
list, flipped parity bit. -/
theorem sorted_fn_adjSwap (pre post : List ℕ) (x y : ℕ) (hxy : x ≠ y) :
    (sorted_fn (pre ++ y :: x :: post)).1 = (sorted_fn (pre ++ x :: y :: post)).1 ∧
      (sorted_fn (pre ++ y :: x :: post)).2 = !(sorted_fn (pre ++ x :: y :: post)).2 := by
  obtain ⟨h1, h2⟩ := sortW_adjSwap pre post x y hxy
  exact ⟨h1, parity_flip h2⟩

/-- The sorted index list is a permutation of the input index list. -/
theorem sorted_fn_perm (l : List ℕ) : (sorted_fn l).1.Perm l := by
  simpa using sortWGo_fst_perm l [] 0

/-- The sorted index list is sorted. -/
theorem sorted_fn_sorted (l : List ℕ) : (sorted_fn l).1.Sorted (· ≤ ·) :=
  sortWGo_fst_sorted l [] 0 (by simp)

/-! ## The case chains are exactly the cascade over the case tables -/

theorem orient_2dCore_eq_cascade (pi pj pk : Vec2) (odd : Bool) :
    orient_2dCore pi pj pk odd = cascadeEval (orient_2dCases pi pj pk) odd := rfl

theorem orient_3dCore_eq_cascade (pi pj pk pl : Vec3) (odd : Bool) :
    orient_3dCore pi pj pk pl odd = cascadeEval (orient_3dCases pi pj pk pl) odd := rfl

theorem in_circleCore_eq_cascade (pi pj pk pl : Vec2) (odd : Bool) :
    in_circleCore pi pj pk pl odd = cascadeEval (in_circleCases pi pj pk pl) odd := rfl

theorem in_sphereCore_eq_cascade (pi pj pk pl pm : Vec3) (odd : Bool) :
    in_sphereCore pi pj pk pl pm odd = cascadeEval (in_sphereCases pi pj pk pl pm) odd := rfl

/-- `(x != !y) = !(x != y)` for booleans. -/
theorem bne_not_right (x y : Bool) : (x != !y) = !(x != y) := by
  cases x <;> cases y <;> rfl

/-- Negating the parity bit negates the cascade's answer, whatever the
table. -/
theorem cascadeEval_not (cs : List (ℚ × ℚ)) (odd : Bool) :
    cascadeEval cs (!odd) = !cascadeEval cs odd := by
  induction cs with
  | nil => rfl
  | cons p rest ih =>
    obtain ⟨a, b⟩ := p
    simp only [cascadeEval]
    split
    · exact bne_not_right _ _
    · exact ih

/-- Negating the parity bit negates `orient_2d`'s dispatch. -/
theorem orient_2dDispatch_not {α : Type _} (list : α) (index_fn : α → ℕ → Vec2)
    (s : List ℕ) (odd : Bool) :
    orient_2dDispatch list index_fn (s, !odd) =
      !orient_2dDispatch list index_fn (s, odd) := by
  rcases s with _ | ⟨a, _ | ⟨b, _ | ⟨c, _ | ⟨d, t⟩⟩⟩⟩ <;>
    simp only [orient_2dDispatch, orient_2dCore_eq_cascade, cascadeEval_not]

/-- Negating the parity bit negates `orient_3d`'s dispatch. -/
theorem orient_3dDispatch_not {α : Type _} (list : α) (index_fn : α → ℕ → Vec3)
    (s : List ℕ) (odd : Bool) :
    orient_3dDispatch list index_fn (s, !odd) =
      !orient_3dDispatch list index_fn (s, odd) := by
  rcases s with _ | ⟨a, _ | ⟨b, _ | ⟨c, _ | ⟨d, _ | ⟨e, t⟩⟩⟩⟩⟩ <;>
    simp only [orient_3dDispatch, orient_3dCore_eq_cascade, cascadeEval_not]

/-- Negating the parity bit negates `in_circle`'s dispatch. -/
theorem in_circleDispatch_not {α : Type _} (list : α) (index_fn : α → ℕ → Vec2)
    (s : List ℕ) (odd : Bool) :
    in_circleDispatch list index_fn (s, !odd) =
      !in_circleDispatch list index_fn (s, odd) := by
  rcases s with _ | ⟨a, _ | ⟨b, _ | ⟨c, _ | ⟨d, _ | ⟨e, t⟩⟩⟩⟩⟩ <;>
    simp only [in_circleDispatch, in_circleCore_eq_cascade, cascadeEval_not]

/-- Negating the parity bit negates `in_sphere`'s dispatch. -/
theorem in_sphereDispatch_not {α : Type _} (list : α) (index_fn : α → ℕ → Vec3)
    (s : List ℕ) (odd : Bool) :
    in_sphereDispatch list index_fn (s, !odd) =
      !in_sphereDispatch list index_fn (s, odd) := by
  rcases s with _ | ⟨a, _ | ⟨b, _ | ⟨c, _ | ⟨d, _ | ⟨e, _ | ⟨f, t⟩⟩⟩⟩⟩⟩ <;>
    simp only [in_sphereDispatch, in_sphereCore_eq_cascade, cascadeEval_not]

/-! ## Transpositions of the index arguments at the `sorted_fn` level -/

theorem sorted_fn3_swap01 (a b c : ℕ) (h : a ≠ b) :
    (sorted_fn [b, a, c]).1 = (sorted_fn [a, b, c]).1 ∧
      (sorted_fn [b, a, c]).2 = !(sorted_fn [a, b, c]).2 := by
  simpa using sorted_fn_adjSwap [] [c] a b h

theorem sorted_fn3_swap12 (a b c : ℕ) (h : b ≠ c) :
    (sorted_fn [a, c, b]).1 = (sorted_fn [a, b, c]).1 ∧
      (sorted_fn [a, c, b]).2 = !(sorted_fn [a, b, c]).2 := by
  simpa using sorted_fn_adjSwap [a] [] b c h

theorem sorted_fn3_swap02 (a b c : ℕ) (hab : a ≠ b) (hac : a ≠ c) (hbc : b ≠ c) :
    (sorted_fn [c, b, a]).1 = (sorted_fn [a, b, c]).1 ∧
      (sorted_fn [c, b, a]).2 = !(sorted_fn [a, b, c]).2 := by
  have h1 : (sorted_fn [c, b, a]).1 = (sorted_fn [b, c, a]).1 ∧
      (sorted_fn [c, b, a]).2 = !(sorted_fn [b, c, a]).2 := by
    simpa using sorted_fn_adjSwap [] [a] b c hbc
  have h2 : (sorted_fn [b, c, a]).1 = (sorted_fn [b, a, c]).1 ∧
      (sorted_fn [b, c, a]).2 = !(sorted_fn [b, a, c]).2 := by
    simpa using sorted_fn_adjSwap [b] [] a c hac
  have h3 := sorted_fn3_swap01 a b c hab
  refine ⟨h1.1.trans (h2.1.trans h3.1), ?_⟩
  rw [h1.2, h2.2, h3.2, Bool.not_not]

theorem sorted_fn4_swap01 (a b c d : ℕ) (h : a ≠ b) :
    (sorted_fn [b, a, c, d]).1 = (sorted_fn [a, b, c, d]).1 ∧
      (sorted_fn [b, a, c, d]).2 = !(sorted_fn [a, b, c, d]).2 := by
  simpa using sorted_fn_adjSwap [] [c, d] a b h

theorem sorted_fn4_swap12 (a b c d : ℕ) (h : b ≠ c) :
    (sorted_fn [a, c, b, d]).1 = (sorted_fn [a, b, c, d]).1 ∧
      (sorted_fn [a, c, b, d]).2 = !(sorted_fn [a, b, c, d]).2 := by
  simpa using sorted_fn_adjSwap [a] [d] b c h

theorem sorted_fn4_swap23 (a b c d : ℕ) (h : c ≠ d) :
    (sorted_fn [a, b, d, c]).1 = (sorted_fn [a, b, c, d]).1 ∧
      (sorted_fn [a, b, d, c]).2 = !(sorted_fn [a, b, c, d]).2 := by
  simpa using sorted_fn_adjSwap [a, b] [] c d h

theorem sorted_fn4_swap02 (a b c d : ℕ) (hab : a ≠ b) (hac : a ≠ c) (hbc : b ≠ c) :
    (sorted_fn [c, b, a, d]).1 = (sorted_fn [a, b, c, d]).1 ∧
      (sorted_fn [c, b, a, d]).2 = !(sorted_fn [a, b, c, d]).2 := by
  have h1 : (sorted_fn [c, b, a, d]).1 = (sorted_fn [b, c, a, d]).1 ∧
      (sorted_fn [c, b, a, d]).2 = !(sorted_fn [b, c, a, d]).2 := by
    simpa using sorted_fn_adjSwap [] [a, d] b c hbc
  have h2 : (sorted_fn [b, c, a, d]).1 = (sorted_fn [b, a, c, d]).1 ∧
      (sorted_fn [b, c, a, d]).2 = !(sorted_fn [b, a, c, d]).2 := by
    simpa using sorted_fn_adjSwap [b] [d] a c hac
  have h3 := sorted_fn4_swap01 a b c d hab
  refine ⟨h1.1.trans (h2.1.trans h3.1), ?_⟩
  rw [h1.2, h2.2, h3.2, Bool.not_not]

theorem sorted_fn4_swap13 (a b c d : ℕ) (hbc : b ≠ c) (hbd : b ≠ d) (hcd : c ≠ d) :
    (sorted_fn [a, d, c, b]).1 = (sorted_fn [a, b, c, d]).1 ∧
      (sorted_fn [a, d, c, b]).2 = !(sorted_fn [a, b, c, d]).2 := by
  have h1 : (sorted_fn [a, d, c, b]).1 = (sorted_fn [a, c, d, b]).1 ∧
      (sorted_fn [a, d, c, b]).2 = !(sorted_fn [a, c, d, b]).2 := by
    simpa using sorted_fn_adjSwap [a] [b] c d hcd
  have h2 : (sorted_fn [a, c, d, b]).1 = (sorted_fn [a, c, b, d]).1 ∧
      (sorted_fn [a, c, d, b]).2 = !(sorted_fn [a, c, b, d]).2 := by
    simpa using sorted_fn_adjSwap [a, c] [] b d hbd
  have h3 := sorted_fn4_swap12 a b c d hbc
  refine ⟨h1.1.trans (h2.1.trans h3.1), ?_⟩
  rw [h1.2, h2.2, h3.2, Bool.not_not]

theorem sorted_fn4_swap03 (a b c d : ℕ) (hab : a ≠ b) (hac : a ≠ c) (had : a ≠ d)
    (hbd : b ≠ d) (hcd : c ≠ d) :
    (sorted_fn [d, b, c, a]).1 = (sorted_fn [a, b, c, d]).1 ∧
      (sorted_fn [d, b, c, a]).2 = !(sorted_fn [a, b, c, d]).2 := by
  have h1 : (sorted_fn [d, b, c, a]).1 = (sorted_fn [b, d, c, a]).1 ∧
      (sorted_fn [d, b, c, a]).2 = !(sorted_fn [b, d, c, a]).2 := by
    simpa using sorted_fn_adjSwap [] [c, a] b d hbd
  have h2 : (sorted_fn [b, d, c, a]).1 = (sorted_fn [b, c, d, a]).1 ∧
      (sorted_fn [b, d, c, a]).2 = !(sorted_fn [b, c, d, a]).2 := by
    simpa using sorted_fn_adjSwap [b] [a] c d hcd
  have h3 : (sorted_fn [b, c, d, a]).1 = (sorted_fn [b, c, a, d]).1 ∧
      (sorted_fn [b, c, d, a]).2 = !(sorted_fn [b, c, a, d]).2 := by
    simpa using sorted_fn_adjSwap [b, c] [] a d had
  have h4 : (sorted_fn [b, c, a, d]).1 = (sorted_fn [b, a, c, d]).1 ∧
      (sorted_fn [b, c, a, d]).2 = !(sorted_fn [b, a, c, d]).2 := by
    simpa using sorted_fn_adjSwap [b] [d] a c hac
  have h5 := sorted_fn4_swap01 a b c d hab
  refine ⟨h1.1.trans (h2.1.trans (h3.1.trans (h4.1.trans h5.1))), ?_⟩
  rw [h1.2, h2.2, h3.2, h4.2, h5.2, Bool.not_not, Bool.not_not]

theorem sorted_fn5_swap34 (a b c d e : ℕ) (h : d ≠ e) :
    (sorted_fn [a, b, c, e, d]).1 = (sorted_fn [a, b, c, d, e]).1 ∧
      (sorted_fn [a, b, c, e, d]).2 = !(sorted_fn [a, b, c, d, e]).2 := by
  simpa using sorted_fn_adjSwap [a, b, c] [] d e h

/-! ## Argument transpositions flip `orient_2d` / `orient_3d` -/

theorem orient_2d_swapList {α : Type _} (list : α) (index_fn : α → ℕ → Vec2)
    (l1 l2 : List ℕ) (h1 : (sorted_fn l1).1 = (sorted_fn l2).1)
    (h2 : (sorted_fn l1).2 = !(sorted_fn l2).2) :
    orient_2dDispatch list index_fn (sorted_fn l1) =
      !orient_2dDispatch list index_fn (sorted_fn l2) := by
  have hp : sorted_fn l1 = ((sorted_fn l2).1, !(sorted_fn l2).2) := by rw [← h1, ← h2]
  rw [hp, orient_2dDispatch_not]

theorem orient_3d_swapList {α : Type _} (list : α) (index_fn : α → ℕ → Vec3)
    (l1 l2 : List ℕ) (h1 : (sorted_fn l1).1 = (sorted_fn l2).1)
    (h2 : (sorted_fn l1).2 = !(sorted_fn l2).2) :
    orient_3dDispatch list index_fn (sorted_fn l1) =
      !orient_3dDispatch list index_fn (sorted_fn l2) := by
  have hp : sorted_fn l1 = ((sorted_fn l2).1, !(sorted_fn l2).2) := by rw [← h1, ← h2]
  rw [hp, orient_3dDispatch_not]

theorem orient_2d_swapArgs01 {α : Type _} (list : α) (index_fn : α → ℕ → Vec2)
    (i j k : ℕ) (h : i ≠ j) :
    orient_2d list index_fn j i k = !orient_2d list index_fn i j k :=
  orient_2d_swapList list index_fn [j, i, k] [i, j, k]
    (sorted_fn3_swap01 i j k h).1 (sorted_fn3_swap01 i j k h).2

theorem orient_2d_swapArgs12 {α : Type _} (list : α) (index_fn : α → ℕ → Vec2)
    (i j k : ℕ) (h : j ≠ k) :
    orient_2d list index_fn i k j = !orient_2d list index_fn i j k :=
  orient_2d_swapList list index_fn [i, k, j] [i, j, k]
    (sorted_fn3_swap12 i j k h).1 (sorted_fn3_swap12 i j k h).2

theorem orient_2d_swapArgs02 {α : Type _} (list : α) (index_fn : α → ℕ → Vec2)
    (i j k : ℕ) (hij : i ≠ j) (hik : i ≠ k) (hjk : j ≠ k) :
    orient_2d list index_fn k j i = !orient_2d list index_fn i j k :=
  orient_2d_swapList list index_fn [k, j, i] [i, j, k]
    (sorted_fn3_swap02 i j k hij hik hjk).1 (sorted_fn3_swap02 i j k hij hik hjk).2

theorem orient_3d_swapArgs01 {α : Type _} (list : α) (index_fn : α → ℕ → Vec3)
    (i j k l : ℕ) (h : i ≠ j) :
    orient_3d list index_fn j i k l = !orient_3d list index_fn i j k l :=
  orient_3d_swapList list index_fn [j, i, k, l] [i, j, k, l]
    (sorted_fn4_swap01 i j k l h).1 (sorted_fn4_swap01 i j k l h).2

theorem orient_3d_swapArgs12 {α : Type _} (list : α) (index_fn : α → ℕ → Vec3)
    (i j k l : ℕ) (h : j ≠ k) :
    orient_3d list index_fn i k j l = !orient_3d list index_fn i j k l :=
  orient_3d_swapList list index_fn [i, k, j, l] [i, j, k, l]
    (sorted_fn4_swap12 i j k l h).1 (sorted_fn4_swap12 i j k l h).2

theorem orient_3d_swapArgs23 {α : Type _} (list : α) (index_fn : α → ℕ → Vec3)
    (i j k l : ℕ) (h : k ≠ l) :
    orient_3d list index_fn i j l k = !orient_3d list index_fn i j k l :=
  orient_3d_swapList list index_fn [i, j, l, k] [i, j, k, l]
    (sorted_fn4_swap23 i j k l h).1 (sorted_fn4_swap23 i j k l h).2

theorem orient_3d_swapArgs02 {α : Type _} (list : α) (index_fn : α → ℕ → Vec3)
    (i j k l : ℕ) (hij : i ≠ j) (hik : i ≠ k) (hjk : j ≠ k) :
    orient_3d list index_fn k j i l = !orient_3d list index_fn i j k l :=
  orient_3d_swapList list index_fn [k, j, i, l] [i, j, k, l]
    (sorted_fn4_swap02 i j k l hij hik hjk).1 (sorted_fn4_swap02 i j k l hij hik hjk).2

theorem orient_3d_swapArgs13 {α : Type _} (list : α) (index_fn : α → ℕ → Vec3)
    (i j k l : ℕ) (hjk : j ≠ k) (hjl : j ≠ l) (hkl : k ≠ l) :
    orient_3d list index_fn i l k j = !orient_3d list index_fn i j k l :=
  orient_3d_swapList list index_fn [i, l, k, j] [i, j, k, l]
    (sorted_fn4_swap13 i j k l hjk hjl hkl).1 (sorted_fn4_swap13 i j k l hjk hjl hkl).2

theorem orient_3d_swapArgs03 {α : Type _} (list : α) (index_fn : α → ℕ → Vec3)
    (i j k l : ℕ) (hij : i ≠ j) (hik : i ≠ k) (hil : i ≠ l) (hjl : j ≠ l)
    (hkl : k ≠ l) :
    orient_3d list index_fn l j k i = !orient_3d list index_fn i j k l :=
  orient_3d_swapList list index_fn [l, j, k, i] [i, j, k, l]
    (sorted_fn4_swap03 i j k l hij hik hil hjl hkl).1
    (sorted_fn4_swap03 i j k l hij hik hil hjl hkl).2

theorem bne_not_left (x y : Bool) : ((!x) != y) = !(x != y) := by
  cases x <;> cases y <;> rfl

theorem orient_2d_permParity {α : Type _} (list : α) (index_fn : α → ℕ → Vec2)
    (v : Fin 3 → ℕ) (hv : Function.Injective v) (π : Equiv.Perm (Fin 3)) :
    orient_2d list index_fn (v (π 0)) (v (π 1)) (v (π 2)) =
      ((decide (Equiv.Perm.sign π = -1)) != orient_2d list index_fn (v 0) (v 1) (v 2)) := by
  refine @Equiv.Perm.swap_induction_on' (Fin 3) _ _
    (fun σ => orient_2d list index_fn (v (σ 0)) (v (σ 1)) (v (σ 2)) =
      ((decide (Equiv.Perm.sign σ = -1))
        != orient_2d list index_fn (v 0) (v 1) (v 2))) π ?_ ?_
  · simp
  · intro π x y hxy ih
    have hd : ∀ s t : Fin 3, s ≠ t → v (π s) ≠ v (π t) := fun s t hst he =>
      hst (π.injective (hv he))
    have hs : decide (Equiv.Perm.sign (π * Equiv.swap x y) = -1)
        = !decide (Equiv.Perm.sign π = -1) := by
      rw [Equiv.Perm.sign_mul, Equiv.Perm.sign_swap hxy]
      rcases Int.units_eq_one_or (Equiv.Perm.sign π) with h | h <;> rw [h] <;> decide
    simp only [Equiv.Perm.mul_apply, hs]
    have hcase : Equiv.swap x y = Equiv.swap 0 1 ∨ Equiv.swap x y = Equiv.swap 0 2 ∨
        Equiv.swap x y = Equiv.swap 1 2 := by
      fin_cases x <;> fin_cases y <;> revert hxy <;> decide
    rcases hcase with hc | hc | hc <;> rw [hc]
    · rw [show Equiv.swap (0 : Fin 3) 1 0 = 1 from by decide,
        show Equiv.swap (0 : Fin 3) 1 1 = 0 from by decide,
        show Equiv.swap (0 : Fin 3) 1 2 = 2 from by decide,
        orient_2d_swapArgs01 list index_fn _ _ _ (hd 0 1 (by decide)), ih, bne_not_left]
    · rw [show Equiv.swap (0 : Fin 3) 2 0 = 2 from by decide,
        show Equiv.swap (0 : Fin 3) 2 1 = 1 from by decide,
        show Equiv.swap (0 : Fin 3) 2 2 = 0 from by decide,
        orient_2d_swapArgs02 list index_fn _ _ _ (hd 0 1 (by decide)) (hd 0 2 (by decide))
          (hd 1 2 (by decide)), ih, bne_not_left]
    · rw [show Equiv.swap (1 : Fin 3) 2 0 = 0 from by decide,
        show Equiv.swap (1 : Fin 3) 2 1 = 2 from by decide,
        show Equiv.swap (1 : Fin 3) 2 2 = 1 from by decide,
        orient_2d_swapArgs12 list index_fn _ _ _ (hd 1 2 (by decide)), ih, bne_not_left]

theorem orient_3d_permParity {α : Type _} (list : α) (index_fn : α → ℕ → Vec3)
    (v : Fin 4 → ℕ) (hv : Function.Injective v) (π : Equiv.Perm (Fin 4)) :
    orient_3d list index_fn (v (π 0)) (v (π 1)) (v (π 2)) (v (π 3)) =
      ((decide (Equiv.Perm.sign π = -1))
        != orient_3d list index_fn (v 0) (v 1) (v 2) (v 3)) := by
  refine @Equiv.Perm.swap_induction_on' (Fin 4) _ _
    (fun σ => orient_3d list index_fn (v (σ 0)) (v (σ 1)) (v (σ 2)) (v (σ 3)) =
      ((decide (Equiv.Perm.sign σ = -1))
        != orient_3d list index_fn (v 0) (v 1) (v 2) (v 3))) π ?_ ?_
  · simp
  · intro π x y hxy ih
    have hd : ∀ s t : Fin 4, s ≠ t → v (π s) ≠ v (π t) := fun s t hst he =>
      hst (π.injective (hv he))
    have hs : decide (Equiv.Perm.sign (π * Equiv.swap x y) = -1)
        = !decide (Equiv.Perm.sign π = -1) := by
      rw [Equiv.Perm.sign_mul, Equiv.Perm.sign_swap hxy]
      rcases Int.units_eq_one_or (Equiv.Perm.sign π) with h | h <;> rw [h] <;> decide
    simp only [Equiv.Perm.mul_apply, hs]
    have hcase : Equiv.swap x y = Equiv.swap 0 1 ∨ Equiv.swap x y = Equiv.swap 0 2 ∨
        Equiv.swap x y = Equiv.swap 0 3 ∨ Equiv.swap x y = Equiv.swap 1 2 ∨
        Equiv.swap x y = Equiv.swap 1 3 ∨ Equiv.swap x y = Equiv.swap 2 3 := by
      fin_cases x <;> fin_cases y <;> revert hxy <;> decide
    rcases hcase with hc | hc | hc | hc | hc | hc <;> rw [hc]
    · rw [show Equiv.swap (0 : Fin 4) 1 0 = 1 from by decide,
        show Equiv.swap (0 : Fin 4) 1 1 = 0 from by decide,
        show Equiv.swap (0 : Fin 4) 1 2 = 2 from by decide,
        show Equiv.swap (0 : Fin 4) 1 3 = 3 from by decide,
        orient_3d_swapArgs01 list index_fn _ _ _ _ (hd 0 1 (by decide)), ih, bne_not_left]
    · rw [show Equiv.swap (0 : Fin 4) 2 0 = 2 from by decide,
        show Equiv.swap (0 : Fin 4) 2 1 = 1 from by decide,
        show Equiv.swap (0 : Fin 4) 2 2 = 0 from by decide,
        show Equiv.swap (0 : Fin 4) 2 3 = 3 from by decide,
        orient_3d_swapArgs02 list index_fn _ _ _ _ (hd 0 1 (by decide))
          (hd 0 2 (by decide)) (hd 1 2 (by decide)), ih, bne_not_left]
    · rw [show Equiv.swap (0 : Fin 4) 3 0 = 3 from by decide,
        show Equiv.swap (0 : Fin 4) 3 1 = 1 from by decide,
        show Equiv.swap (0 : Fin 4) 3 2 = 2 from by decide,
        show Equiv.swap (0 : Fin 4) 3 3 = 0 from by decide,
        orient_3d_swapArgs03 list index_fn _ _ _ _ (hd 0 1 (by decide))
          (hd 0 2 (by decide)) (hd 0 3 (by decide)) (hd 1 3 (by decide))
          (hd 2 3 (by decide)), ih, bne_not_left]
    · rw [show Equiv.swap (1 : Fin 4) 2 0 = 0 from by decide,
        show Equiv.swap (1 : Fin 4) 2 1 = 2 from by decide,
        show Equiv.swap (1 : Fin 4) 2 2 = 1 from by decide,
        show Equiv.swap (1 : Fin 4) 2 3 = 3 from by decide,
        orient_3d_swapArgs12 list index_fn _ _ _ _ (hd 1 2 (by decide)), ih, bne_not_left]
    · rw [show Equiv.swap (1 : Fin 4) 3 0 = 0 from by decide,
        show Equiv.swap (1 : Fin 4) 3 1 = 3 from by decide,
        show Equiv.swap (1 : Fin 4) 3 2 = 2 from by decide,
        show Equiv.swap (1 : Fin 4) 3 3 = 1 from by decide,
        orient_3d_swapArgs13 list index_fn _ _ _ _ (hd 1 2 (by decide))
          (hd 1 3 (by decide)) (hd 2 3 (by decide)), ih, bne_not_left]
    · rw [show Equiv.swap (2 : Fin 4) 3 0 = 0 from by decide,
        show Equiv.swap (2 : Fin 4) 3 1 = 1 from by decide,
        show Equiv.swap (2 : Fin 4) 3 2 = 3 from by decide,
        show Equiv.swap (2 : Fin 4) 3 3 = 2 from by decide,
        orient_3d_swapArgs23 list index_fn _ _ _ _ (hd 2 3 (by decide)), ih, bne_not_left]

/-! ## The last-two-argument exchange identity of the in-sphere predicates -/

/-- For a parity-faithful table walk `D`, comparing runs whose parities
differ by the sort flip and the two orientation flips. -/
theorem dispatch_bne_lemma (D : Bool → Bool) (hD : ∀ o, D (!o) = !D o) (odd b1 b2 : Bool) :
    (D (odd != !b1) != D ((!odd) != !b2)) = !(b1 != b2) := by
  have h1 : D true = !D false := by simpa using hD false
  cases odd <;> cases b1 <;> cases b2 <;> cases hdf : D false <;> simp [h1, hdf]

theorem in_sphere_symmLast {α : Type _} (list : α) (index_fn : α → ℕ → Vec3)
    (i j k l m : ℕ) (hlm : l ≠ m) :
    (in_sphere list index_fn i j k l m != in_sphere list index_fn i j k m l) =
      !(orient_3d list index_fn i j k l != orient_3d list index_fn i j k m) := by
  obtain ⟨h1, h2⟩ := sorted_fn5_swap34 i j k l m hlm
  show (in_sphereDispatch list index_fn
      ((sorted_fn [i,j,k,l,m]).1, (sorted_fn [i,j,k,l,m]).2 != !orient_3d list index_fn i j k l)
    != in_sphereDispatch list index_fn
      ((sorted_fn [i,j,k,m,l]).1, (sorted_fn [i,j,k,m,l]).2 != !orient_3d list index_fn i j k m))
    = !(orient_3d list index_fn i j k l != orient_3d list index_fn i j k m)
  rw [h1, h2]
  exact dispatch_bne_lemma
    (fun o => in_sphereDispatch list index_fn ((sorted_fn [i,j,k,l,m]).1, o))
    (fun o => in_sphereDispatch_not list index_fn _ o)
    (sorted_fn [i,j,k,l,m]).2 (orient_3d list index_fn i j k l)
    (orient_3d list index_fn i j k m)

theorem in_circle_symmLast {α : Type _} (list : α) (index_fn : α → ℕ → Vec2)
    (i j k l : ℕ) (hkl : k ≠ l) :
    (in_circle list index_fn i j k l != in_circle list index_fn i j l k) =
      !(orient_2d list index_fn i j k != orient_2d list index_fn i j l) := by
  obtain ⟨h1, h2⟩ := sorted_fn4_swap23 i j k l hkl
  show (in_circleDispatch list index_fn
      ((sorted_fn [i,j,k,l]).1, (sorted_fn [i,j,k,l]).2 != !orient_2d list index_fn i j k)
    != in_circleDispatch list index_fn
      ((sorted_fn [i,j,l,k]).1, (sorted_fn [i,j,l,k]).2 != !orient_2d list index_fn i j l))
    = !(orient_2d list index_fn i j k != orient_2d list index_fn i j l)
  rw [h1, h2]
  exact dispatch_bne_lemma
    (fun o => in_circleDispatch list index_fn ((sorted_fn [i,j,k,l]).1, o))
    (fun o => in_circleDispatch_not list index_fn _ o)
    (sorted_fn [i,j,k,l]).2 (orient_2d list index_fn i j k)
    (orient_2d list index_fn i j l)

/-! ## Indexer-invocation traces

Each `..T` function is the same translation of the Rust body, but every
`let p = index_fn(list, i)` additionally appends `i` to a running log of
indexer invocations, and the nested `orient` call made by the
in-hypersphere predicates to compute their flip contributes its own log. -/

/-- `orient_1d` with its indexer-invocation log. -/
def orient_1dT {α : Type _} (list : α) (index_fn : α → ℕ → ℚ) (i j : ℕ) :
    Bool × List ℕ :=
  let pi := (index_fn list i, [i])
  let pj := (index_fn list j, pi.2 ++ [j])
  (decide (pj.1 < pi.1) || (decide (pi.1 = pj.1) && decide (i < j)), pj.2)

/-- `orient_2d` with its indexer-invocation log. -/
def orient_2dT {α : Type _} (list : α) (index_fn : α → ℕ → Vec2)
    (i j k : ℕ) : Bool × List ℕ :=
  match sorted_fn [i, j, k] with
  | ([i, j, k], odd) =>
    let pi := (index_fn list i, [i])
    let pj := (index_fn list j, pi.2 ++ [j])
    let pk := (index_fn list k, pj.2 ++ [k])
    (orient_2dCore pi.1 pj.1 pk.1 odd, pk.2)
  | (_, odd) => (!odd, [])

/-- `orient_3d` with its indexer-invocation log. -/
def orient_3dT {α : Type _} (list : α) (index_fn : α → ℕ → Vec3)
    (i j k l : ℕ) : Bool × List ℕ :=
  match sorted_fn [i, j, k, l] with
  | ([i, j, k, l], odd) =>
    let pi := (index_fn list i, [i])
    let pj := (index_fn list j, pi.2 ++ [j])
    let pk := (index_fn list k, pj.2 ++ [k])
    let pl := (index_fn list l, pk.2 ++ [l])
    (orient_3dCore pi.1 pj.1 pk.1 pl.1 odd, pl.2)
  | (_, odd) => (!odd, [])

/-- `in_circle` with its indexer-invocation log; the `orient_2d` call that
computes the flip logs its own three invocations first. -/
def in_circleT {α : Type _} (list : α) (index_fn : α → ℕ → Vec2)
    (i j k l : ℕ) : Bool × List ℕ :=
  let o := orient_2dT list index_fn i j k
  let flip := !o.1
  match sorted_fn [i, j, k, l] with
  | ([i, j, k, l], odd) =>
    let pi := (index_fn list i, o.2 ++ [i])
    let pj := (index_fn list j, pi.2 ++ [j])
    let pk := (index_fn list k, pj.2 ++ [k])
    let pl := (index_fn list l, pk.2 ++ [l])
    (in_circleCore pi.1 pj.1 pk.1 pl.1 (odd != flip), pl.2)
  | (_, odd) => (!(odd != flip), o.2)

/-- `in_sphere` with its indexer-invocation log; the `orient_3d` call that
computes the flip logs its own four invocations first. -/
def in_sphereT {α : Type _} (list : α) (index_fn : α → ℕ → Vec3)
    (i j k l m : ℕ) : Bool × List ℕ :=
  let o := orient_3dT list index_fn i j k l
  let flip := !o.1
  match sorted_fn [i, j, k, l, m] with
  | ([i, j, k, l, m], odd) =>
    let pi := (index_fn list i, o.2 ++ [i])
    let pj := (index_fn list j, pi.2 ++ [j])
    let pk := (index_fn list k, pj.2 ++ [k])
    let pl := (index_fn list l, pk.2 ++ [l])
    let pm := (index_fn list m, pl.2 ++ [m])
    (in_sphereCore pi.1 pj.1 pk.1 pl.1 pm.1 (odd != flip), pm.2)
  | (_, odd) => (!(odd != flip), o.2)

/-! ## The fall-through ("all case signs zero") predicates -/

/-- All cases of a table tie (every compared pair is equal, i.e. every
sign is zero): the cascade falls through to its terminal `!odd`. -/
def casesTie (cs : List (ℚ × ℚ)) : Bool := cs.all fun p => p.1 == p.2

/-- `orient_2d` reaches its terminal fall-through on these arguments. -/
def orient_2dTie {α : Type _} (list : α) (index_fn : α → ℕ → Vec2)
    (i j k : ℕ) : Bool :=
  match sorted_fn [i, j, k] with
  | ([a, b, c], _) =>
    casesTie (orient_2dCases (index_fn list a) (index_fn list b) (index_fn list c))
  | _ => true

/-- `orient_3d` reaches its terminal fall-through on these arguments. -/
def orient_3dTie {α : Type _} (list : α) (index_fn : α → ℕ → Vec3)
    (i j k l : ℕ) : Bool :=
  match sorted_fn [i, j, k, l] with
  | ([a, b, c, d], _) =>
    casesTie (orient_3dCases (index_fn list a) (index_fn list b) (index_fn list c)
      (index_fn list d))
  | _ => true

/-- `in_circle` reaches its terminal fall-through on these arguments. -/
def in_circleTie {α : Type _} (list : α) (index_fn : α → ℕ → Vec2)
    (i j k l : ℕ) : Bool :=
  match sorted_fn [i, j, k, l] with
  | ([a, b, c, d], _) =>
    casesTie (in_circleCases (index_fn list a) (index_fn list b) (index_fn list c)
      (index_fn list d))
  | _ => true

/-- `in_sphere` reaches its terminal fall-through on these arguments. -/
def in_sphereTie {α : Type _} (list : α) (index_fn : α → ℕ → Vec3)
    (i j k l m : ℕ) : Bool :=
  match sorted_fn [i, j, k, l, m] with
  | ([a, b, c, d, e], _) =>
    casesTie (in_sphereCases (index_fn list a) (index_fn list b) (index_fn list c)
      (index_fn list d) (index_fn list e))
  | _ => true

/-- Sorting preserves the number of indices. -/
theorem sorted_fn_length (l : List ℕ) : (sorted_fn l).1.length = l.length :=
  (sorted_fn_perm l).length_eq

theorem orient_1dT_spec {α : Type _} (list : α) (index_fn : α → ℕ → ℚ) (i j : ℕ) :
    (orient_1dT list index_fn i j).1 = orient_1d list index_fn i j ∧
      (orient_1dT list index_fn i j).2 = [i, j] := by
  constructor <;> rfl

theorem orient_2dT_spec {α : Type _} (list : α) (index_fn : α → ℕ → Vec2) (i j k : ℕ) :
    (orient_2dT list index_fn i j k).1 = orient_2d list index_fn i j k ∧
      (orient_2dT list index_fn i j k).2 = (sorted_fn [i, j, k]).1 := by
  have hlen := sorted_fn_length [i, j, k]
  rcases hs : sorted_fn [i, j, k] with ⟨s, odd⟩
  rw [hs] at hlen
  rcases s with _ | ⟨a, _ | ⟨b, _ | ⟨c, _ | ⟨d, t⟩⟩⟩⟩ <;> simp at hlen
  simp [orient_2dT, orient_2d, orient_2dDispatch, hs]

theorem orient_3dT_spec {α : Type _} (list : α) (index_fn : α → ℕ → Vec3) (i j k l : ℕ) :
    (orient_3dT list index_fn i j k l).1 = orient_3d list index_fn i j k l ∧
      (orient_3dT list index_fn i j k l).2 = (sorted_fn [i, j, k, l]).1 := by
  have hlen := sorted_fn_length [i, j, k, l]
  rcases hs : sorted_fn [i, j, k, l] with ⟨s, odd⟩
  rw [hs] at hlen
  rcases s with _ | ⟨a, _ | ⟨b, _ | ⟨c, _ | ⟨d, _ | ⟨e, t⟩⟩⟩⟩⟩ <;> simp at hlen
  simp [orient_3dT, orient_3d, orient_3dDispatch, hs]

theorem in_circleT_spec {α : Type _} (list : α) (index_fn : α → ℕ → Vec2) (i j k l : ℕ) :
    (in_circleT list index_fn i j k l).1 = in_circle list index_fn i j k l ∧
      (in_circleT list index_fn i j k l).2 =
        (sorted_fn [i, j, k]).1 ++ (sorted_fn [i, j, k, l]).1 := by
  obtain ⟨ho1, ho2⟩ := orient_2dT_spec list index_fn i j k
  have hlen := sorted_fn_length [i, j, k, l]
  rcases hs : sorted_fn [i, j, k, l] with ⟨s, odd⟩
  rw [hs] at hlen
  rcases s with _ | ⟨a, _ | ⟨b, _ | ⟨c, _ | ⟨d, _ | ⟨e, t⟩⟩⟩⟩⟩ <;> simp at hlen
  simp [in_circleT, in_circle, in_circleDispatch, hs, ho1, ho2]

theorem in_sphereT_spec {α : Type _} (list : α) (index_fn : α → ℕ → Vec3) (i j k l m : ℕ) :
    (in_sphereT list index_fn i j k l m).1 = in_sphere list index_fn i j k l m ∧
      (in_sphereT list index_fn i j k l m).2 =
        (sorted_fn [i, j, k, l]).1 ++ (sorted_fn [i, j, k, l, m]).1 := by
  obtain ⟨ho1, ho2⟩ := orient_3dT_spec list index_fn i j k l
  have hlen := sorted_fn_length [i, j, k, l, m]
  rcases hs : sorted_fn [i, j, k, l, m] with ⟨s, odd⟩
  rw [hs] at hlen
  rcases s with _ | ⟨a, _ | ⟨b, _ | ⟨c, _ | ⟨d, _ | ⟨e, _ | ⟨f, t⟩⟩⟩⟩⟩⟩ <;> simp at hlen
  simp [in_sphereT, in_sphere, in_sphereDispatch, hs, ho1, ho2]

theorem Vec2.ext_xy {v w : Vec2} (hx : v.x = w.x) (hy : v.y = w.y) : v = w := by
  cases v; cases w; simp_all

theorem Vec3.ext_xyz {v w : Vec3} (hx : v.x = w.x) (hy : v.y = w.y) (hz : v.z = w.z) :
    v = w := by
  cases v; cases w; simp_all

theorem orient_2dTie_false {α : Type _} (list : α) (index_fn : α → ℕ → Vec2) (i j k : ℕ)
    (h : ([i, j, k] : List ℕ).Pairwise (fun a b => index_fn list a ≠ index_fn list b)) :
    orient_2dTie list index_fn i j k = false := by
  have hp := (List.Perm.pairwise_iff (fun hab => Ne.symm hab) (sorted_fn_perm [i, j, k])).2 h
  have hlen := sorted_fn_length [i, j, k]
  rcases hs : sorted_fn [i, j, k] with ⟨s, odd⟩
  rw [hs] at hlen hp
  rcases s with _ | ⟨a, _ | ⟨b, _ | ⟨c, _ | ⟨d, t⟩⟩⟩⟩ <;> simp at hlen
  simp only [orient_2dTie, hs]
  rcases hb : casesTie (orient_2dCases (index_fn list a) (index_fn list b) (index_fn list c))
    with _ | _
  · rfl
  · exfalso
    rw [casesTie] at hb
    have hmem := fun p hp' => List.all_eq_true.1 hb p hp'
    have h1 : (index_fn list c).x = (index_fn list b).x := by
      simpa using hmem ((index_fn list c).x, (index_fn list b).x) (by simp [orient_2dCases])
    have h2 : (index_fn list b).y = (index_fn list c).y := by
      simpa using hmem ((index_fn list b).y, (index_fn list c).y) (by simp [orient_2dCases])
    simp only [List.pairwise_cons] at hp
    exact hp.2.1 c (by simp) (Vec2.ext_xy h1.symm h2)

theorem orient_3dTie_false {α : Type _} (list : α) (index_fn : α → ℕ → Vec3) (i j k l : ℕ)
    (h : ([i, j, k, l] : List ℕ).Pairwise (fun a b => index_fn list a ≠ index_fn list b)) :
    orient_3dTie list index_fn i j k l = false := by
  have hp := (List.Perm.pairwise_iff (fun hab => Ne.symm hab) (sorted_fn_perm [i, j, k, l])).2 h
  have hlen := sorted_fn_length [i, j, k, l]
  rcases hs : sorted_fn [i, j, k, l] with ⟨s, odd⟩
  rw [hs] at hlen hp
  rcases s with _ | ⟨a, _ | ⟨b, _ | ⟨c, _ | ⟨d, _ | ⟨e, t⟩⟩⟩⟩⟩ <;> simp at hlen
  simp only [orient_3dTie, hs]
  rcases hb : casesTie (orient_3dCases (index_fn list a) (index_fn list b) (index_fn list c)
      (index_fn list d)) with _ | _
  · rfl
  · exfalso
    rw [casesTie] at hb
    have hmem := fun p hp' => List.all_eq_true.1 hb p hp'
    have h1 : (index_fn list c).x = (index_fn list d).x := by
      simpa using hmem ((index_fn list c).x, (index_fn list d).x) (by simp [orient_3dCases])
    have h2 : (index_fn list d).y = (index_fn list c).y := by
      simpa using hmem ((index_fn list d).y, (index_fn list c).y) (by simp [orient_3dCases])
    have h3 : (index_fn list c).z = (index_fn list d).z := by
      simpa using hmem ((index_fn list c).z, (index_fn list d).z) (by simp [orient_3dCases])
    simp only [List.pairwise_cons] at hp
    exact hp.2.2.1 d (by simp) (Vec3.ext_xyz h1 h2.symm h3)

theorem in_circleTie_false {α : Type _} (list : α) (index_fn : α → ℕ → Vec2) (i j k l : ℕ)
    (h : ([i, j, k, l] : List ℕ).Pairwise (fun a b => index_fn list a ≠ index_fn list b)) :
    in_circleTie list index_fn i j k l = false := by
  have hp := (List.Perm.pairwise_iff (fun hab => Ne.symm hab) (sorted_fn_perm [i, j, k, l])).2 h
  have hlen := sorted_fn_length [i, j, k, l]
  rcases hs : sorted_fn [i, j, k, l] with ⟨s, odd⟩
  rw [hs] at hlen hp
  rcases s with _ | ⟨a, _ | ⟨b, _ | ⟨c, _ | ⟨d, _ | ⟨e, t⟩⟩⟩⟩⟩ <;> simp at hlen
  simp only [in_circleTie, hs]
  rcases hb : casesTie (in_circleCases (index_fn list a) (index_fn list b) (index_fn list c)
      (index_fn list d)) with _ | _
  · rfl
  · exfalso
    rw [casesTie] at hb
    have hmem := fun p hp' => List.all_eq_true.1 hb p hp'
    have h1 : (index_fn list c).x = (index_fn list d).x := by
      simpa using hmem ((index_fn list c).x, (index_fn list d).x) (by simp [in_circleCases])
    have h2 : (index_fn list d).y = (index_fn list c).y := by
      simpa using hmem ((index_fn list d).y, (index_fn list c).y) (by simp [in_circleCases])
    simp only [List.pairwise_cons] at hp
    exact hp.2.2.1 d (by simp) (Vec2.ext_xy h1 h2.symm)

theorem in_sphereTie_false {α : Type _} (list : α) (index_fn : α → ℕ → Vec3) (i j k l m : ℕ)
    (h : ([i, j, k, l, m] : List ℕ).Pairwise (fun a b => index_fn list a ≠ index_fn list b)) :
    in_sphereTie list index_fn i j k l m = false := by
  have hp := (List.Perm.pairwise_iff (fun hab => Ne.symm hab)
    (sorted_fn_perm [i, j, k, l, m])).2 h
  have hlen := sorted_fn_length [i, j, k, l, m]
  rcases hs : sorted_fn [i, j, k, l, m] with ⟨s, odd⟩
  rw [hs] at hlen hp
  rcases s with _ | ⟨a, _ | ⟨b, _ | ⟨c, _ | ⟨d, _ | ⟨e, _ | ⟨f, t⟩⟩⟩⟩⟩⟩ <;> simp at hlen
  simp only [in_sphereTie, hs]
  rcases hb : casesTie (in_sphereCases (index_fn list a) (index_fn list b) (index_fn list c)
      (index_fn list d) (index_fn list e)) with _ | _
  · rfl
  · exfalso
    rw [casesTie] at hb
    have hmem := fun p hp' => List.all_eq_true.1 hb p hp'
    have h1 : (index_fn list e).x = (index_fn list d).x := by
      simpa using hmem ((index_fn list e).x, (index_fn list d).x) (by simp [in_sphereCases])
    have h2 : (index_fn list d).y = (index_fn list e).y := by
      simpa using hmem ((index_fn list d).y, (index_fn list e).y) (by simp [in_sphereCases])
    have h3 : (index_fn list e).z = (index_fn list d).z := by
      simpa using hmem ((index_fn list e).z, (index_fn list d).z) (by simp [in_sphereCases])
    simp only [List.pairwise_cons] at hp
    exact hp.2.2.2.1 e (by simp) (Vec3.ext_xyz h1.symm h2 h3.symm)

/-! ## The predicates depend only on the indexer's values at the supplied indices -/

theorem orient_1d_congr {α β : Type _} (list1 : α) (fn1 : α → ℕ → ℚ)
    (list2 : β) (fn2 : β → ℕ → ℚ) (i j : ℕ)
    (h : ∀ n ∈ ([i, j] : List ℕ), fn1 list1 n = fn2 list2 n) :
    orient_1d list1 fn1 i j = orient_1d list2 fn2 i j := by
  simp [orient_1d, h i (by simp), h j (by simp)]

theorem orient_2d_congr {α β : Type _} (list1 : α) (fn1 : α → ℕ → Vec2)
    (list2 : β) (fn2 : β → ℕ → Vec2) (i j k : ℕ)
    (h : ∀ n ∈ ([i, j, k] : List ℕ), fn1 list1 n = fn2 list2 n) :
    orient_2d list1 fn1 i j k = orient_2d list2 fn2 i j k := by
  have hperm := sorted_fn_perm [i, j, k]
  have hlen := sorted_fn_length [i, j, k]
  rcases hs : sorted_fn [i, j, k] with ⟨s, odd⟩
  rw [hs] at hlen hperm
  rcases s with _ | ⟨a, _ | ⟨b, _ | ⟨c, _ | ⟨d, t⟩⟩⟩⟩ <;> simp at hlen
  have hm : ∀ n ∈ ([a, b, c] : List ℕ), fn1 list1 n = fn2 list2 n :=
    fun n hn => h n (hperm.subset hn)
  simp [orient_2d, orient_2dDispatch, hs, hm a (by simp), hm b (by simp), hm c (by simp)]

theorem orient_3d_congr {α β : Type _} (list1 : α) (fn1 : α → ℕ → Vec3)
    (list2 : β) (fn2 : β → ℕ → Vec3) (i j k l : ℕ)
    (h : ∀ n ∈ ([i, j, k, l] : List ℕ), fn1 list1 n = fn2 list2 n) :
    orient_3d list1 fn1 i j k l = orient_3d list2 fn2 i j k l := by
  have hperm := sorted_fn_perm [i, j, k, l]
  have hlen := sorted_fn_length [i, j, k, l]
  rcases hs : sorted_fn [i, j, k, l] with ⟨s, odd⟩
  rw [hs] at hlen hperm
  rcases s with _ | ⟨a, _ | ⟨b, _ | ⟨c, _ | ⟨d, _ | ⟨e, t⟩⟩⟩⟩⟩ <;> simp at hlen
  have hm : ∀ n ∈ ([a, b, c, d] : List ℕ), fn1 list1 n = fn2 list2 n :=
    fun n hn => h n (hperm.subset hn)
  simp [orient_3d, orient_3dDispatch, hs, hm a (by simp), hm b (by simp), hm c (by simp),
    hm d (by simp)]

theorem in_circle_congr {α β : Type _} (list1 : α) (fn1 : α → ℕ → Vec2)
    (list2 : β) (fn2 : β → ℕ → Vec2) (i j k l : ℕ)
    (h : ∀ n ∈ ([i, j, k, l] : List ℕ), fn1 list1 n = fn2 list2 n) :
    in_circle list1 fn1 i j k l = in_circle list2 fn2 i j k l := by
  have hflip := orient_2d_congr list1 fn1 list2 fn2 i j k
    (fun n hn => h n (by simp at hn ⊢; tauto))
  have hperm := sorted_fn_perm [i, j, k, l]
  have hlen := sorted_fn_length [i, j, k, l]
  rcases hs : sorted_fn [i, j, k, l] with ⟨s, odd⟩
  rw [hs] at hlen hperm
  rcases s with _ | ⟨a, _ | ⟨b, _ | ⟨c, _ | ⟨d, _ | ⟨e, t⟩⟩⟩⟩⟩ <;> simp at hlen
  have hm : ∀ n ∈ ([a, b, c, d] : List ℕ), fn1 list1 n = fn2 list2 n :=
    fun n hn => h n (hperm.subset hn)
  simp [in_circle, in_circleDispatch, hs, hflip, hm a (by simp), hm b (by simp),
    hm c (by simp), hm d (by simp)]

theorem in_sphere_congr {α β : Type _} (list1 : α) (fn1 : α → ℕ → Vec3)
    (list2 : β) (fn2 : β → ℕ → Vec3) (i j k l m : ℕ)
    (h : ∀ n ∈ ([i, j, k, l, m] : List ℕ), fn1 list1 n = fn2 list2 n) :
    in_sphere list1 fn1 i j k l m = in_sphere list2 fn2 i j k l m := by
  have hflip := orient_3d_congr list1 fn1 list2 fn2 i j k l
    (fun n hn => h n (by simp at hn ⊢; tauto))
  have hperm := sorted_fn_perm [i, j, k, l, m]
  have hlen := sorted_fn_length [i, j, k, l, m]
  rcases hs : sorted_fn [i, j, k, l, m] with ⟨s, odd⟩
  rw [hs] at hlen hperm
  rcases s with _ | ⟨a, _ | ⟨b, _ | ⟨c, _ | ⟨d, _ | ⟨e, _ | ⟨f, t⟩⟩⟩⟩⟩⟩ <;> simp at hlen
  have hm : ∀ n ∈ ([a, b, c, d, e] : List ℕ), fn1 list1 n = fn2 list2 n :=
    fun n hn => h n (hperm.subset hn)
  simp [in_sphere, in_sphereDispatch, hs, hflip, hm a (by simp), hm b (by simp),
    hm c (by simp), hm d (by simp), hm e (by simp)]

/-! ## Concrete fixtures used by witnesses and counterexamples -/

/-- Indexer for a concrete list of 1-dimensional points. -/
def exIx1 (L : List ℚ) (n : ℕ) : ℚ := L.getD n 0

/-- Indexer for a concrete list of 2-dimensional points. -/
def exIx2 (L : List Vec2) (n : ℕ) : Vec2 := L.getD n ⟨0, 0⟩

/-- Indexer for a concrete list of 3-dimensional points. -/
def exIx3 (L : List Vec3) (n : ℕ) : Vec3 := L.getD n ⟨0, 0, 0⟩

/-- Three points in general position. -/
def exPts2 : List Vec2 := [⟨0, 0⟩, ⟨1, 0⟩, ⟨2, 1⟩]

/-- The same three points with an extra unrelated point appended. -/
def exPts2b : List Vec2 := [⟨0, 0⟩, ⟨1, 0⟩, ⟨2, 1⟩, ⟨9, 9⟩]

/-- Three distinct indices referencing coincident coordinates. -/
def exDegen2 : List Vec2 := [⟨0, 0⟩, ⟨0, 2⟩, ⟨0, 2⟩]

/-- Four collinear 3-dimensional points (spec scenario 6). -/
def exColl3 : List Vec3 := [⟨0, 0, 0⟩, ⟨1, 1, 1⟩, ⟨2, 2, 2⟩, ⟨3, 3, 3⟩]

/-- The in-sphere example of the crate documentation. -/
def exSphere : List Vec3 := [⟨0, 0, 0⟩, ⟨4, 0, 0⟩, ⟨0, 4, 0⟩, ⟨0, 0, 4⟩, ⟨1, 1, 1⟩]

/-- The general-position in-circle example of the crate tests. -/
def exCircle : List Vec2 := [⟨0, 0⟩, ⟨0, 2⟩, ⟨2, 2⟩, ⟨1, 1⟩]

/-- The identity embedding of `Fin 3` index tuples. -/
def exV3 : Fin 3 → ℕ := fun t => (t : ℕ)

/-- The identity embedding of `Fin 4` index tuples. -/
def exV4 : Fin 4 → ℕ := fun t => (t : ℕ)

/-! ## Claims -/

/-- C1.  Every predicate call sorts its indices, forms the parity `odd`
(XORed with the orientation flip for the in-hypersphere predicates),
fetches the sorted points and then walks its fixed case table in order:
the first case whose two compared quantities differ (nonzero sign)
returns `(sign > 0) XOR odd`, and if every case ties the call returns
`!odd`.  `cascadeEval` is that table walk, and the four case tables are
`orient_2dCases` … `in_sphereCases`. -/
theorem claim_C1 :
    (∀ (α : Type) (list : α) (index_fn : α → ℕ → Vec2) (i j k a b c : ℕ) (odd : Bool),
      sorted_fn [i, j, k] = ([a, b, c], odd) →
      orient_2d list index_fn i j k =
        cascadeEval (orient_2dCases (index_fn list a) (index_fn list b)
          (index_fn list c)) odd) ∧
    (∀ (α : Type) (list : α) (index_fn : α → ℕ → Vec3) (i j k l a b c d : ℕ) (odd : Bool),
      sorted_fn [i, j, k, l] = ([a, b, c, d], odd) →
      orient_3d list index_fn i j k l =
        cascadeEval (orient_3dCases (index_fn list a) (index_fn list b) (index_fn list c)
          (index_fn list d)) odd) ∧
    (∀ (α : Type) (list : α) (index_fn : α → ℕ → Vec2) (i j k l a b c d : ℕ) (odd : Bool),
      sorted_fn [i, j, k, l] = ([a, b, c, d], odd) →
      in_circle list index_fn i j k l =
        cascadeEval (in_circleCases (index_fn list a) (index_fn list b) (index_fn list c)
          (index_fn list d)) (odd != !orient_2d list index_fn i j k)) ∧
    (∀ (α : Type) (list : α) (index_fn : α → ℕ → Vec3) (i j k l m a b c d e : ℕ)
        (odd : Bool),
      sorted_fn [i, j, k, l, m] = ([a, b, c, d, e], odd) →
      in_sphere list index_fn i j k l m =
        cascadeEval (in_sphereCases (index_fn list a) (index_fn list b) (index_fn list c)
          (index_fn list d) (index_fn list e)) (odd != !orient_3d list index_fn i j k l)) := by
  refine ⟨?_, ?_, ?_, ?_⟩
  · intro α list index_fn i j k a b c odd h
    simp [orient_2d, orient_2dDispatch, h, orient_2dCore_eq_cascade]
  · intro α list index_fn i j k l a b c d odd h
    simp [orient_3d, orient_3dDispatch, h, orient_3dCore_eq_cascade]
  · intro α list index_fn i j k l a b c d odd h
    simp [in_circle, in_circleDispatch, h, in_circleCore_eq_cascade]
  · intro α list index_fn i j k l m a b c d e odd h
    simp [in_sphere, in_sphereDispatch, h, in_sphereCore_eq_cascade]

/-- Witness for C1 at concrete inputs. -/
theorem claim_C1_witness :
    (sorted_fn [2, 0, 1] = ([0, 1, 2], false) ∧
      orient_2d exPts2 exIx2 2 0 1 =
        cascadeEval (orient_2dCases (exIx2 exPts2 0) (exIx2 exPts2 1)
          (exIx2 exPts2 2)) false) ∧
    (sorted_fn [0, 1, 2, 3, 4] = ([0, 1, 2, 3, 4], false) ∧
      in_sphere exSphere exIx3 0 1 2 3 4 =
        cascadeEval (in_sphereCases (exIx3 exSphere 0) (exIx3 exSphere 1) (exIx3 exSphere 2)
          (exIx3 exSphere 3) (exIx3 exSphere 4))
          (false != !orient_3d exSphere exIx3 0 1 2 3)) :=
  ⟨⟨by decide, claim_C1.1 (List Vec2) exPts2 exIx2 2 0 1 0 1 2 false (by decide)⟩,
   ⟨by decide, claim_C1.2.2.2 (List Vec3) exSphere exIx3 0 1 2 3 4 0 1 2 3 4 false
      (by decide)⟩⟩

/-- `(true != b) = !b` for booleans. -/
theorem true_bne (b : Bool) : (true != b) = !b := by cases b <;> rfl

/-- C2.  For pairwise-distinct indices (an injective index tuple `v`),
permuting the arguments of `orient_2d` / `orient_3d` XORs the result with
the permutation's parity; in particular applying any transposition flips
the returned boolean. -/
theorem claim_C2 :
    (∀ (α : Type) (list : α) (index_fn : α → ℕ → Vec2) (v : Fin 3 → ℕ),
      Function.Injective v → ∀ π : Equiv.Perm (Fin 3),
      orient_2d list index_fn (v (π 0)) (v (π 1)) (v (π 2)) =
        ((decide (Equiv.Perm.sign π = -1))
          != orient_2d list index_fn (v 0) (v 1) (v 2))) ∧
    (∀ (α : Type) (list : α) (index_fn : α → ℕ → Vec3) (v : Fin 4 → ℕ),
      Function.Injective v → ∀ π : Equiv.Perm (Fin 4),
      orient_3d list index_fn (v (π 0)) (v (π 1)) (v (π 2)) (v (π 3)) =
        ((decide (Equiv.Perm.sign π = -1))
          != orient_3d list index_fn (v 0) (v 1) (v 2) (v 3))) ∧
    (∀ (α : Type) (list : α) (index_fn : α → ℕ → Vec2) (v : Fin 3 → ℕ),
      Function.Injective v → ∀ a b : Fin 3, a ≠ b →
      orient_2d list index_fn (v (Equiv.swap a b 0)) (v (Equiv.swap a b 1))
          (v (Equiv.swap a b 2)) =
        !orient_2d list index_fn (v 0) (v 1) (v 2)) ∧
    (∀ (α : Type) (list : α) (index_fn : α → ℕ → Vec3) (v : Fin 4 → ℕ),
      Function.Injective v → ∀ a b : Fin 4, a ≠ b →
      orient_3d list index_fn (v (Equiv.swap a b 0)) (v (Equiv.swap a b 1))
          (v (Equiv.swap a b 2)) (v (Equiv.swap a b 3)) =
        !orient_3d list index_fn (v 0) (v 1) (v 2) (v 3)) := by
  refine ⟨fun α list index_fn v hv π => orient_2d_permParity list index_fn v hv π,
    fun α list index_fn v hv π => orient_3d_permParity list index_fn v hv π, ?_, ?_⟩
  · intro α list index_fn v hv a b hab
    have h := orient_2d_permParity list index_fn v hv (Equiv.swap a b)
    rw [Equiv.Perm.sign_swap hab] at h
    rw [show decide ((-1 : ℤˣ) = -1) = true from by decide, true_bne] at h
    exact h
  · intro α list index_fn v hv a b hab
    have h := orient_3d_permParity list index_fn v hv (Equiv.swap a b)
    rw [Equiv.Perm.sign_swap hab] at h
    rw [show decide ((-1 : ℤˣ) = -1) = true from by decide, true_bne] at h
    exact h

/-- Witness for C2 at a concrete input. -/
theorem claim_C2_witness :
    Function.Injective exV3 ∧
      orient_2d exPts2 exIx2 (exV3 (Equiv.swap 0 1 0)) (exV3 (Equiv.swap 0 1 1))
          (exV3 (Equiv.swap 0 1 2)) =
        ((decide (Equiv.Perm.sign (Equiv.swap (0 : Fin 3) 1) = -1))
          != orient_2d exPts2 exIx2 (exV3 0) (exV3 1) (exV3 2)) :=
  ⟨by decide, claim_C2.1 (List Vec2) exPts2 exIx2 exV3 (by decide) (Equiv.swap 0 1)⟩

theorem exSphere_is_3 : in_sphere exSphere exIx3 0 1 2 3 4 = true := by
  norm_num [in_sphere, in_sphereDispatch, in_sphereCore, orient_3d, orient_3dDispatch,
    orient_3dCore, sorted_fn, sortWGo, insertW, exIx3, exSphere, rg.in_sphere, rg.orient_3d,
    det4, det3, det2, Vec3.mag]

theorem exSphere_is_4 : in_sphere exSphere exIx3 0 1 2 4 3 = false := by
  norm_num [in_sphere, in_sphereDispatch, in_sphereCore, orient_3d, orient_3dDispatch,
    orient_3dCore, sorted_fn, sortWGo, insertW, exIx3, exSphere, rg.in_sphere, rg.orient_3d,
    det4, det3, det2, Vec3.mag]

theorem exSphere_o3_3 : orient_3d exSphere exIx3 0 1 2 3 = false := by
  norm_num [orient_3d, orient_3dDispatch, orient_3dCore, sorted_fn, sortWGo, insertW,
    exIx3, exSphere, rg.orient_3d, det3, det2]

theorem exSphere_o3_4 : orient_3d exSphere exIx3 0 1 2 4 = false := by
  norm_num [orient_3d, orient_3dDispatch, orient_3dCore, sorted_fn, sortWGo, insertW,
    exIx3, exSphere, rg.orient_3d, det3, det2]

/-- C3, counterexample: at the documentation's in-sphere configuration the
two in-sphere calls differ while the two orientations agree, so the
spec's equation `is(i,j,k,l,m) XOR is(i,j,k,m,l) = o3(i,j,k,l) XOR
o3(i,j,k,m)` fails; the code satisfies its negation. -/
theorem claim_C3_counterexample :
    ¬ ((in_sphere exSphere exIx3 0 1 2 3 4 != in_sphere exSphere exIx3 0 1 2 4 3) =
      (orient_3d exSphere exIx3 0 1 2 3 != orient_3d exSphere exIx3 0 1 2 4)) := by
  rw [exSphere_is_3, exSphere_is_4, exSphere_o3_3, exSphere_o3_4]
  decide

/-- C3, amended.  For distinct last indices, exchanging the last two
arguments of `in_sphere` toggles the result except when the two
orientations of the first four arguments differ:
`is(i,j,k,l,m) XOR is(i,j,k,m,l) = NOT (o3(i,j,k,l) XOR o3(i,j,k,m))`;
analogously for `in_circle` with `orient_2d`. -/
theorem claim_C3 :
    (∀ (α : Type) (list : α) (index_fn : α → ℕ → Vec3) (i j k l m : ℕ), l ≠ m →
      (in_sphere list index_fn i j k l m != in_sphere list index_fn i j k m l) =
        !(orient_3d list index_fn i j k l != orient_3d list index_fn i j k m)) ∧
    (∀ (α : Type) (list : α) (index_fn : α → ℕ → Vec2) (i j k l : ℕ), k ≠ l →
      (in_circle list index_fn i j k l != in_circle list index_fn i j l k) =
        !(orient_2d list index_fn i j k != orient_2d list index_fn i j l)) :=
  ⟨fun α list index_fn i j k l m hlm => in_sphere_symmLast list index_fn i j k l m hlm,
   fun α list index_fn i j k l hkl => in_circle_symmLast list index_fn i j k l hkl⟩

/-- Witness for the amended C3 at a concrete input. -/
theorem claim_C3_witness :
    (3 : ℕ) ≠ 4 ∧
      (in_sphere exSphere exIx3 0 1 2 3 4 != in_sphere exSphere exIx3 0 1 2 4 3) =
        !(orient_3d exSphere exIx3 0 1 2 3 != orient_3d exSphere exIx3 0 1 2 4) :=
  ⟨by decide, claim_C3.1 (List Vec3) exSphere exIx3 0 1 2 3 4 (by decide)⟩

/-- C4, counterexample: the indices 0, 1, 2 are pairwise distinct, yet on
the point list `[(0,0), (0,2), (0,2)]` every case of `orient_2d`'s table
ties and the terminal fall-through is reached. -/
theorem claim_C4_counterexample :
    ((0 : ℕ) ≠ 1 ∧ (0 : ℕ) ≠ 2 ∧ (1 : ℕ) ≠ 2) ∧
      orient_2dTie exDegen2 exIx2 0 1 2 = true := by
  refine ⟨by decide, ?_⟩
  norm_num [orient_2dTie, casesTie, orient_2dCases, sorted_fn, sortWGo, insertW,
    exIx2, exDegen2, rg.orient_2d, det3, det2]

/-- C4, amended.  The terminal fall-through is unreachable provided the
coordinate vectors referenced by the supplied indices are pairwise
distinct (distinct indices alone do not suffice, because distinct indices
may reference coincident coordinates). -/
theorem claim_C4 :
    (∀ (α : Type) (list : α) (index_fn : α → ℕ → Vec2) (i j k : ℕ),
      ([i, j, k] : List ℕ).Pairwise (fun a b => index_fn list a ≠ index_fn list b) →
      orient_2dTie list index_fn i j k = false) ∧
    (∀ (α : Type) (list : α) (index_fn : α → ℕ → Vec3) (i j k l : ℕ),
      ([i, j, k, l] : List ℕ).Pairwise (fun a b => index_fn list a ≠ index_fn list b) →
      orient_3dTie list index_fn i j k l = false) ∧
    (∀ (α : Type) (list : α) (index_fn : α → ℕ → Vec2) (i j k l : ℕ),
      ([i, j, k, l] : List ℕ).Pairwise (fun a b => index_fn list a ≠ index_fn list b) →
      in_circleTie list index_fn i j k l = false) ∧
    (∀ (α : Type) (list : α) (index_fn : α → ℕ → Vec3) (i j k l m : ℕ),
      ([i, j, k, l, m] : List ℕ).Pairwise (fun a b => index_fn list a ≠ index_fn list b) →
      in_sphereTie list index_fn i j k l m = false) :=
  ⟨fun α list index_fn i j k h => orient_2dTie_false list index_fn i j k h,
   fun α list index_fn i j k l h => orient_3dTie_false list index_fn i j k l h,
   fun α list index_fn i j k l h => in_circleTie_false list index_fn i j k l h,
   fun α list index_fn i j k l m h => in_sphereTie_false list index_fn i j k l m h⟩

/-- Witness for the amended C4 at a concrete input. -/
theorem claim_C4_witness :
    ([0, 1, 2] : List ℕ).Pairwise (fun a b => exIx2 exPts2 a ≠ exIx2 exPts2 b) ∧
      orient_2dTie exPts2 exIx2 0 1 2 = false := by
  have hp : ([0, 1, 2] : List ℕ).Pairwise (fun a b => exIx2 exPts2 a ≠ exIx2 exPts2 b) := by
    norm_num [List.pairwise_cons, exIx2, exPts2]
  exact ⟨hp, claim_C4.1 (List Vec2) exPts2 exIx2 0 1 2 hp⟩

/-- C5, counterexample: an `in_circle` call (arity k = 4) invokes the
indexer seven times, not at most four — the orientation-flip call to
`orient_2d` fetches the first three indices before the main body fetches
all four sorted ones. -/
theorem claim_C5_counterexample :
    ¬ ((in_circleT exCircle exIx2 0 1 2 3).2.length ≤ 4) := by
  rw [(in_circleT_spec exCircle exIx2 0 1 2 3).2]
  decide

/-- C5, amended.  The orient predicates invoke the indexer exactly k
times, once per sorted index (`orient_1d` in argument order, without
sorting); `in_circle` and `in_sphere` invoke it 2k−1 times: the
orientation flip's nested call fetches the first k−1 indices, then the
main body fetches each of the k sorted indices exactly once. -/
theorem claim_C5 :
    (∀ (α : Type) (list : α) (index_fn : α → ℕ → ℚ) (i j : ℕ),
      (orient_1dT list index_fn i j).1 = orient_1d list index_fn i j ∧
        (orient_1dT list index_fn i j).2 = [i, j]) ∧
    (∀ (α : Type) (list : α) (index_fn : α → ℕ → Vec2) (i j k : ℕ),
      (orient_2dT list index_fn i j k).1 = orient_2d list index_fn i j k ∧
        (orient_2dT list index_fn i j k).2 = (sorted_fn [i, j, k]).1 ∧
        (orient_2dT list index_fn i j k).2.length = 3) ∧
    (∀ (α : Type) (list : α) (index_fn : α → ℕ → Vec3) (i j k l : ℕ),
      (orient_3dT list index_fn i j k l).1 = orient_3d list index_fn i j k l ∧
        (orient_3dT list index_fn i j k l).2 = (sorted_fn [i, j, k, l]).1 ∧
        (orient_3dT list index_fn i j k l).2.length = 4) ∧
    (∀ (α : Type) (list : α) (index_fn : α → ℕ → Vec2) (i j k l : ℕ),
      (in_circleT list index_fn i j k l).1 = in_circle list index_fn i j k l ∧
        (in_circleT list index_fn i j k l).2 =
          (sorted_fn [i, j, k]).1 ++ (sorted_fn [i, j, k, l]).1 ∧
        (in_circleT list index_fn i j k l).2.length = 7) ∧
    (∀ (α : Type) (list : α) (index_fn : α → ℕ → Vec3) (i j k l m : ℕ),
      (in_sphereT list index_fn i j k l m).1 = in_sphere list index_fn i j k l m ∧
        (in_sphereT list index_fn i j k l m).2 =
          (sorted_fn [i, j, k, l]).1 ++ (sorted_fn [i, j, k, l, m]).1 ∧
        (in_sphereT list index_fn i j k l m).2.length = 9) := by
  refine ⟨fun α list index_fn i j => orient_1dT_spec list index_fn i j, ?_, ?_, ?_, ?_⟩
  · intro α list index_fn i j k
    obtain ⟨h1, h2⟩ := orient_2dT_spec list index_fn i j k
    exact ⟨h1, h2, by rw [h2, sorted_fn_length]; rfl⟩
  · intro α list index_fn i j k l
    obtain ⟨h1, h2⟩ := orient_3dT_spec list index_fn i j k l
    exact ⟨h1, h2, by rw [h2, sorted_fn_length]; rfl⟩
  · intro α list index_fn i j k l
    obtain ⟨h1, h2⟩ := in_circleT_spec list index_fn i j k l
    exact ⟨h1, h2, by rw [h2]; simp [sorted_fn_length]⟩
  · intro α list index_fn i j k l m
    obtain ⟨h1, h2⟩ := in_sphereT_spec list index_fn i j k l m
    exact ⟨h1, h2, by rw [h2]; simp [sorted_fn_length]⟩

/-- C6, counterexample: on the four collinear points `(0,0,0)`, `(1,1,1)`,
`(2,2,2)`, `(3,3,3)` with indices 0, 1, 2, 3 the evaluator returns
`false`, not `true` as the spec's scenario asserts: the cascade reaches
the `pk.x` versus `pl.x` comparison with `pk = (2,2,2)`, `pl = (3,3,3)`
and `2 > 3` is false. -/
theorem claim_C6_counterexample :
    ¬ (orient_3d exColl3 exIx3 0 1 2 3 = true) := by
  norm_num [orient_3d, orient_3dDispatch, orient_3dCore, sorted_fn, sortWGo, insertW,
    exIx3, exColl3, rg.orient_3d, rg.orient_2d, det3, det2, Vec3.xy, Vec3.zx, Vec3.yz,
    Vec3.yx, Vec3.xz]

/-- C6, amended: that call returns `false`. -/
theorem claim_C6 : orient_3d exColl3 exIx3 0 1 2 3 = false := by
  norm_num [orient_3d, orient_3dDispatch, orient_3dCore, sorted_fn, sortWGo, insertW,
    exIx3, exColl3, rg.orient_3d, rg.orient_2d, det3, det2, Vec3.xy, Vec3.zx, Vec3.yz,
    Vec3.yx, Vec3.xz]

/-- C7.  `orient_1d` returns true exactly when the first coordinate is
greater, or the coordinates tie and the first index is lower; it does no
sorting and consults no oracle — its invocation log is just the two
indices in argument order. -/
theorem claim_C7 :
    ∀ (α : Type) (list : α) (index_fn : α → ℕ → ℚ) (i j : ℕ),
      (orient_1d list index_fn i j = true ↔
        (index_fn list j < index_fn list i ∨
          (index_fn list i = index_fn list j ∧ i < j))) ∧
      (orient_1dT list index_fn i j).2 = [i, j] := by
  intro α list index_fn i j
  constructor
  · simp [orient_1d]
  · rfl

/-- C10.  Each predicate's boolean depends only on the index values and
the indexer's results at the supplied indices: any two list/indexer pairs
agreeing there produce the same answer. -/
theorem claim_C10 :
    (∀ (α β : Type) (list1 : α) (fn1 : α → ℕ → ℚ) (list2 : β) (fn2 : β → ℕ → ℚ) (i j : ℕ),
      (∀ n ∈ ([i, j] : List ℕ), fn1 list1 n = fn2 list2 n) →
      orient_1d list1 fn1 i j = orient_1d list2 fn2 i j) ∧
    (∀ (α β : Type) (list1 : α) (fn1 : α → ℕ → Vec2) (list2 : β) (fn2 : β → ℕ → Vec2)
        (i j k : ℕ),
      (∀ n ∈ ([i, j, k] : List ℕ), fn1 list1 n = fn2 list2 n) →
      orient_2d list1 fn1 i j k = orient_2d list2 fn2 i j k) ∧
    (∀ (α β : Type) (list1 : α) (fn1 : α → ℕ → Vec3) (list2 : β) (fn2 : β → ℕ → Vec3)
        (i j k l : ℕ),
      (∀ n ∈ ([i, j, k, l] : List ℕ), fn1 list1 n = fn2 list2 n) →
      orient_3d list1 fn1 i j k l = orient_3d list2 fn2 i j k l) ∧
    (∀ (α β : Type) (list1 : α) (fn1 : α → ℕ → Vec2) (list2 : β) (fn2 : β → ℕ → Vec2)
        (i j k l : ℕ),
      (∀ n ∈ ([i, j, k, l] : List ℕ), fn1 list1 n = fn2 list2 n) →
      in_circle list1 fn1 i j k l = in_circle list2 fn2 i j k l) ∧
    (∀ (α β : Type) (list1 : α) (fn1 : α → ℕ → Vec3) (list2 : β) (fn2 : β → ℕ → Vec3)
        (i j k l m : ℕ),
      (∀ n ∈ ([i, j, k, l, m] : List ℕ), fn1 list1 n = fn2 list2 n) →
      in_sphere list1 fn1 i j k l m = in_sphere list2 fn2 i j k l m) :=
  ⟨fun α β l1 f1 l2 f2 i j h => orient_1d_congr l1 f1 l2 f2 i j h,
   fun α β l1 f1 l2 f2 i j k h => orient_2d_congr l1 f1 l2 f2 i j k h,
   fun α β l1 f1 l2 f2 i j k l h => orient_3d_congr l1 f1 l2 f2 i j k l h,
   fun α β l1 f1 l2 f2 i j k l h => in_circle_congr l1 f1 l2 f2 i j k l h,
   fun α β l1 f1 l2 f2 i j k l m h => in_sphere_congr l1 f1 l2 f2 i j k l m h⟩

/-- Witness for C10 at a concrete input: two different lists agreeing at
the indices 0, 1, 2. -/
theorem claim_C10_witness :
    (∀ n ∈ ([0, 1, 2] : List ℕ), exIx2 exPts2 n = exIx2 exPts2b n) ∧
      orient_2d exPts2 exIx2 0 1 2 = orient_2d exPts2b exIx2 0 1 2 := by
  have hp : ∀ n ∈ ([0, 1, 2] : List ℕ), exIx2 exPts2 n = exIx2 exPts2b n := by
    intro n hn
    fin_cases hn <;> rfl
  exact ⟨hp, claim_C10.2.1 (List Vec2) (List Vec2) exPts2 exIx2 exPts2b exIx2 0 1 2 hp⟩

/-! ## The symbolic cascade generator (`simplicity_derive`)

Embedding of the packaged generator (`simplicity_derive-0.1.0/src/lib.rs`):
sub-determinants, terms, ε-factors, the expansion enumeration `terms`,
the bucketing-and-sorting `term_sums`, the zero-determinant elimination
`without_zero_dets` and the pattern classifier of `TermSum::case`. -/

/-- A sub-determinant of the extended matrix: strictly increasing row and
column index lists; the final row and the final column of ones are
implicitly included. -/
structure Determinant where
  rows : List ℕ
  cols : List ℕ
deriving DecidableEq, Repr

/-- A symbolic term: an integer constant, an optional variable multiplier
(an unperturbed coordinate position), and a sub-determinant. -/
structure Term where
  const_mult : ℤ
  var_mult : Option (ℕ × ℕ)
  det : Determinant
deriving DecidableEq, Repr

/-- An unordered collection of terms sharing one ε-factor. -/
structure TermSum where
  terms : List Term
deriving DecidableEq, Repr

/-- `EFactor::new`: the ε-factor of a multiset of (row, column) pairs, as
the sum of `3 ^ (dim*r + dim - 1 - c)` over the pairs. -/
def eFactor (dim : ℕ) (coords : List (ℕ × ℕ)) : ℕ :=
  (coords.map fun rc => 3 ^ (dim * rc.1 + dim - 1 - rc.2)).sum

/-- `big_e`: the biggest relevant ε-factor. -/
def big_e (dim : ℕ) : ℕ :=
  eFactor dim
    (((List.range (dim - 1)).map fun t => (t, t)) ++
      [(dim - 1, dim - 1), (dim - 1, dim - 1), (dim, dim - 1)])

/-- The removal odometer of `terms`: all sequences of `k` (row-index,
column-index) pairs, enumerated lexicographically with the earlier pairs
most significant, rows non-decreasing and bounded by `dim - (i-1)`, and
the `t`-th column index bounded by `dim - (t-1)` (an index into the
shrinking column list). -/
def rvGo (dim i : ℕ) : ℕ → ℕ → ℕ → List (List (ℕ × ℕ))
  | 0, _, _ => [[]]
  | k + 1, t, minR =>
    ((List.range (dim - (i - 1) + 1 - minR)).map (· + minR)).flatMap fun r =>
      (List.range (dim - (t - 1) + 1)).flatMap fun c =>
        (rvGo dim i k (t + 1) r).map fun rest => (r, c) :: rest

/-- All removal sequences for `i` removed pairs. -/
def removeVecs (dim i : ℕ) : List (List (ℕ × ℕ)) := rvGo dim i i 1 0

/-- Apply a removal sequence to the full row and column lists, recording
the removed (row, column) ids, the accumulated sign, and the remaining
rows and columns. -/
def applyRemove (dim : ℕ) (rcs : List (ℕ × ℕ)) :
    List ℕ × List ℕ × ℤ × List (ℕ × ℕ) :=
  rcs.foldl
    (fun st rc =>
      match st with
      | (rows, cols, mult, efs) =>
        let er := rows.getD rc.1 0
        let rows := rows.eraseIdx rc.1
        let ec := cols.getD rc.2 0
        let cols := cols.eraseIdx rc.2
        let mult := if (er + ec) % 2 = 1 then -mult else mult
        (rows, cols, mult, efs ++ [(er, ec)]))
    (List.range (dim + 1), List.range (dim + 1), 1, [])

/-- `terms(dim)`: the general term followed by the degenerate terms, in
enumeration order; the magnitude column (column id `dim`) expands into a
degree-one term with a variable multiplier and a degree-two term per
coordinate axis; ε-factors beyond `big_e` are discarded. -/
def terms (dim : ℕ) : List (ℕ × Term) :=
  let all := List.range (dim + 1)
  (eFactor dim [], Term.mk 1 none ⟨all, all⟩) ::
    (List.range (dim + 1)).flatMap fun i0 =>
      let i := i0 + 1
      (removeVecs dim i).flatMap fun rem =>
        match applyRemove dim rem with
        | (rows, cols, mult, efs) =>
          let det : Determinant := ⟨rows, cols⟩
          match efs.findIdx? (fun rc => rc.2 == dim) with
          | some p =>
            let magR := (efs.getD p (0, 0)).1
            let efs1 := efs.eraseIdx p
            (List.range dim).flatMap fun j =>
              (if eFactor dim (efs1 ++ [(magR, j)]) ≤ big_e dim then
                [(eFactor dim (efs1 ++ [(magR, j)]),
                  Term.mk (mult * 2) (some (magR, j)) det)]
               else []) ++
              (if eFactor dim (efs1 ++ [(magR, j), (magR, j)]) ≤ big_e dim then
                [(eFactor dim (efs1 ++ [(magR, j), (magR, j)]), Term.mk mult none det)]
               else [])
          | none =>
            if eFactor dim efs ≤ big_e dim then [(eFactor dim efs, Term.mk mult none det)]
            else []

/-- Insert a keyed term sum into a key-sorted list. -/
def insortSum (p : ℕ × TermSum) : List (ℕ × TermSum) → List (ℕ × TermSum)
  | [] => [p]
  | q :: qs => if p.1 ≤ q.1 then p :: q :: qs else q :: insortSum p qs

/-- Sort keyed term sums by key (`sums.sort_by_key`; the keys are the
distinct ε-factors, so ties cannot occur). -/
def sortSums (l : List (ℕ × TermSum)) : List (ℕ × TermSum) :=
  l.foldr insortSum []

/-- `term_sums(dim)`: group the terms by ε-factor (within a bucket the
terms keep their enumeration order) and sort the buckets by ε-factor
ascending. -/
def term_sums (dim : ℕ) : List (ℕ × TermSum) :=
  sortSums (((terms dim).map Prod.fst).dedup.map fun e =>
    (e, ⟨((terms dim).filter fun te => te.1 == e).map Prod.snd⟩))

/-- `Determinant::nonzero` (packaged variant): a determinant is known
zero if it is in the zero set, or if for some size `1 ≤ i < cols.len()`
there is an `i`-subset of its rows all of whose `i`-column minors are in
the zero set. -/
def detNonzero (zd : List Determinant) (d : Determinant) : Bool :=
  if zd.contains d then false
  else if (List.range (d.cols.length - 1)).any fun i0 =>
      (d.rows.sublistsLen (i0 + 1)).any fun cr =>
        (d.cols.sublistsLen (i0 + 1)).all fun cc => zd.contains ⟨cr, cc⟩
  then false
  else true

/-- `TermSum::without_zero_dets` (packaged variant, with the magnitude
special case): drop terms with known-zero determinants; if a single
variable-free term remains, record its determinant as zero, and record
the one-row magnitude determinant when all of that row's coordinate
determinants are known zero; return `none` when no terms remain. -/
def without_zero_dets (dim : ℕ) (s : TermSum) (zd : List Determinant) :
    Option TermSum × List Determinant :=
  let ts := s.terms.filter fun t => detNonzero zd t.det
  match ts with
  | [t] =>
    if t.var_mult = none then
      let zd1 := t.det :: zd
      let zd2 :=
        if t.det.cols.length = 1 ∧
            ((List.range dim).all fun c =>
              zd1.contains ⟨[t.det.rows.getD 0 0], [c]⟩) then
          (⟨[t.det.rows.getD 0 0], [dim]⟩ : Determinant) :: zd1
        else zd1
      (some ⟨ts⟩, zd2)
    else (some ⟨ts⟩, zd)
  | [] => (none, zd)
  | _ => (some ⟨ts⟩, zd)

/-- The elimination loop of `fn_body`: visit the term sums in ascending
ε-factor order, threading the zero-determinant set, and collect the
surviving (simplified) sums. -/
def survGo (dim : ℕ) : List TermSum → List Determinant → List (ℕ × TermSum) → List TermSum
  | acc, _, [] => acc
  | acc, zd, es :: rest =>
    match without_zero_dets dim es.2 zd with
    | (some s, zd2) => survGo dim (acc ++ [s]) zd2 rest
    | (none, zd2) => survGo dim acc zd2 rest

/-- The term sums surviving zero-determinant elimination, threading the
zero set through the cases in ascending ε-factor order (`fn_body`). -/
def survivors (dim : ℕ) : List TermSum :=
  survGo dim [] [] (term_sums dim)

/-- Swap the last two entries of a list (used when normalising a negative
constant by exchanging two determinant rows). -/
def swapLastTwo (l : List ℕ) : List ℕ :=
  if 2 ≤ l.length then
    l.take (l.length - 2) ++ [l.getD (l.length - 1) 0, l.getD (l.length - 2) 0]
  else l

/-- `TermSum::prepare_dets_for_cases` on one term: append the final point
row, and make a negative constant positive by swapping the last two rows. -/
def prepareTerm (dim : ℕ) (t : Term) : Term :=
  let rows := t.det.rows ++ [dim + 1]
  if t.const_mult < 0 then
    ⟨-t.const_mult, t.var_mult, ⟨swapLastTwo rows, t.det.cols⟩⟩
  else ⟨t.const_mult, t.var_mult, ⟨rows, t.det.cols⟩⟩

/-- `TermSum::prepare_dets_for_cases`. -/
def prepare_dets_for_cases (dim : ℕ) (s : TermSum) : TermSum :=
  ⟨s.terms.map (prepareTerm dim)⟩

/-- The pattern recognition of `TermSum::case`: true iff the (prepared)
term sum matches one of the recognised case shapes with all of that
branch's assertions satisfied (including the index accesses it performs
and the supported-dimension check), so that neither the
`Unsupported determinant` panic, the `Unsupported # of dimensions` panic
nor any `assert!` fires. -/
def caseOk (dim : ℕ) (s0 : TermSum) : Bool :=
  let s := prepare_dets_for_cases dim s0
  match s.terms with
  | [t] =>
    if t.det.cols.length = dim + 1 then
      t.const_mult == 1 && t.var_mult == none && (dim == 2 || dim == 3)
    else if t.det.cols.getLast? == some dim then
      t.const_mult == 1 && t.var_mult == none
    else
      t.const_mult == 1 && t.var_mult == none &&
        (t.det.cols.length != 1 || decide (2 ≤ t.det.rows.length))
  | [t1, t2] =>
    if t1.var_mult = none then
      t1.const_mult == 1 && t1.det.cols.getLast? == some dim &&
        t2.const_mult == 2 && t2.var_mult.isSome &&
        t2.det.cols.getLast?.isSome && t2.det.cols.getLast? != some dim
    else
      t1.const_mult == 2 && t1.det.cols.getLast? != some dim &&
        t2.const_mult == 2 && t2.var_mult.isSome && t1.det == t2.det &&
        (t1.det.cols.length != 1 || decide (2 ≤ t1.det.rows.length))
  | _ => false

/-! ## Strict monotonicity of the generated table's ε-factors -/

theorem insortSum_perm (p : ℕ × TermSum) (l : List (ℕ × TermSum)) :
    (insortSum p l).Perm (p :: l) := by
  induction l with
  | nil => exact List.Perm.refl _
  | cons q qs ih =>
    simp only [insortSum]
    split
    · exact List.Perm.refl _
    · exact (ih.cons q).trans (List.Perm.swap p q qs)

theorem sortSums_perm (l : List (ℕ × TermSum)) : (sortSums l).Perm l := by
  induction l with
  | nil => exact List.Perm.refl _
  | cons p ps ih =>
    exact (insortSum_perm p (sortSums ps)).trans (ih.cons p)

theorem insortSum_sorted (p : ℕ × TermSum) (l : List (ℕ × TermSum))
    (h : l.Pairwise (fun a b => a.1 ≤ b.1)) :
    (insortSum p l).Pairwise (fun a b => a.1 ≤ b.1) := by
  induction l with
  | nil => simp [insortSum]
  | cons q qs ih =>
    rw [List.pairwise_cons] at h
    simp only [insortSum]
    split
    · rename_i hpq
      rw [List.pairwise_cons]
      refine ⟨?_, List.pairwise_cons.2 h⟩
      intro b hb
      rcases List.mem_cons.1 hb with hb | hb
      · exact hb ▸ hpq
      · exact le_trans hpq (h.1 b hb)
    · rename_i hpq
      rw [List.pairwise_cons]
      refine ⟨?_, ih h.2⟩
      intro b hb
      have hb' := (insortSum_perm p qs).mem_iff.1 hb
      rcases List.mem_cons.1 hb' with hb' | hb'
      · exact hb' ▸ le_of_not_le hpq
      · exact h.1 b hb'

theorem sortSums_sorted (l : List (ℕ × TermSum)) :
    (sortSums l).Pairwise (fun a b => a.1 ≤ b.1) := by
  induction l with
  | nil => simp [sortSums]
  | cons p ps ih => exact insortSum_sorted p (sortSums ps) ih

/-- The keys entering the sort are the deduplicated ε-factors, so they
are distinct. -/
theorem term_sums_keys_nodup (d : ℕ) : ((term_sums d).map Prod.fst).Nodup := by
  have hperm : (term_sums d).Perm
      (((terms d).map Prod.fst).dedup.map fun e =>
        (e, ⟨((terms d).filter fun te => te.1 == e).map Prod.snd⟩)) :=
    sortSums_perm _
  refine ((hperm.map Prod.fst).nodup_iff).2 ?_
  rw [List.map_map]
  have h2 : ∀ e : ℕ, (Prod.fst ∘ fun e : ℕ =>
      ((e, (⟨((terms d).filter fun te => te.1 == e).map Prod.snd⟩ : TermSum)) : ℕ × TermSum)) e
        = id e := fun e => rfl
  rw [funext h2, List.map_id]
  exact List.nodup_dedup _

/-- C8.  For every dimension the generator accepts, the ε-factors of the
generated table `term_sums d` are strictly increasing: each entry's
ε-factor integer strictly exceeds every earlier entry's.  (The ε-factors
are the distinct keys of the grouping, and `sort_by_key` orders them.) -/
theorem claim_C8 (d : ℕ) (hd : 1 ≤ d) :
    ((term_sums d).map Prod.fst).Pairwise (· < ·) := by
  have hsorted : ((term_sums d).map Prod.fst).Pairwise (· ≤ ·) :=
    List.pairwise_map.2 (sortSums_sorted _)
  have hne : ((term_sums d).map Prod.fst).Pairwise (· ≠ ·) := term_sums_keys_nodup d
  exact (hsorted.and hne).imp fun h => lt_of_le_of_ne h.1 h.2

/-- Witness for C8 at the concrete dimension 2. -/
theorem claim_C8_witness :
    1 ≤ 2 ∧ ((term_sums 2).map Prod.fst).Pairwise (· < ·) :=
  ⟨by decide, claim_C8 2 (by decide)⟩

set_option maxRecDepth 100000 in
set_option maxHeartbeats 4000000 in
/-- C9.  For the supported dimensions 2 and 3, every term sum surviving
zero-determinant elimination matches a recognised case pattern with all
of that branch's assertions satisfied, so neither `TermSum::case`'s
unrecognised-pattern panic nor its pattern assertions can fire during
table construction. -/
theorem claim_C9 :
    ((survivors 2).all (caseOk 2) && (survivors 3).all (caseOk 3)) = true := by
  decide
